import Mathlib

/-!
# Verification of the yt-search-proxy fallback/aggregation engine

Shallow embedding of the Express-based search proxy (`src/server.js` and the
two sibling revisions `src/unnamed/part_000`, `src/unnamed/part_001`).
JavaScript values are modelled by the inductive `Json`, JS expression
evaluation (member access, `??`, `||`, truthiness, `Number`/`String`
coercions, `Array.prototype.map`) by total or `Except`-valued functions,
and the HTTP handlers by pure state-passing functions over an explicit
cache and an upstream-behaviour oracle.
-/

/-- JavaScript numbers as used by this program: either `NaN` or an integer.
Fractional doubles do not arise in the verified claims; the numeric
fragment modelled throughout is the integer one. -/
inductive JsNum where
  | nan : JsNum
  | int (i : Int) : JsNum
deriving DecidableEq, Repr

/-- The universe of JavaScript values flowing through the proxy: JSON data
plus `undefined` (`undefined`), which is needed to model absent object fields
and optional chaining faithfully. -/
inductive Json where
  | undefined : Json
  | null : Json
  | bool (b : Bool) : Json
  | num (n : JsNum) : Json
  | str (s : String) : Json
  | arr (xs : List Json) : Json
  | obj (fields : List (String × Json)) : Json

namespace Js

/-- JS truthiness (`if (x)`, `x || y`). -/
def truthy : Json → Bool
  | .undefined => false
  | .null => false
  | .bool b => b
  | .num .nan => false
  | .num (.int i) => i != 0
  | .str s => s ≠ ""
  | .arr _ => true
  | .obj _ => true

/-- Property lookup `o[k]` on a value that is not `null`/`undefined`:
object fields by name, everything else yields `undefined`. -/
def jsGet : Json → String → Json
  | .obj fs, k => ((fs.find? (fun f => f.1 == k)).map (·.2)).getD .undefined
  | _, _ => .undefined

/-- Plain member access `o.k`: throws a `TypeError` when `o` is
`null`/`undefined`, otherwise `jsGet`. -/
def jsMember (o : Json) (k : String) : Except String Json :=
  match o with
  | .undefined => .error ("TypeError: cannot read properties of undefined (reading " ++ k ++ ")")
  | .null => .error ("TypeError: cannot read properties of null (reading " ++ k ++ ")")
  | v => .ok (jsGet v k)

/-- Optional chaining `o?.k`: `undefined` when `o` is nullish. -/
def optChain (o : Json) (k : String) : Json :=
  match o with
  | .undefined => .undefined
  | .null => .undefined
  | v => jsGet v k

/-- Nullish coalescing `a ?? b`. -/
def jsOr : Json → Json → Json
  | .undefined, b => b
  | .null, b => b
  | a, _ => a

/-- Logical or `a || b` (truthiness-based). -/
def jsOrT (a b : Json) : Json := if truthy a then a else b

/-- Strict equality against a string literal, the only form of `===`
used by the program (`it.type === "video"` etc.). -/
def strictEqStr (a : Json) (s : String) : Bool :=
  match a with
  | .str t => t = s
  | _ => false

/-- Index access `a[n]` on a non-nullish receiver. -/
def jsIdxRaw (a : Json) (n : Nat) : Json :=
  match a with
  | .arr xs => (xs.get? n).getD .undefined
  | .str s => ((s.data.get? n).map (fun c => .str (String.singleton c))).getD .undefined
  | .obj fs => jsGet (.obj fs) (toString n)
  | _ => .undefined

/-- Optional index `a?.[n]`. -/
def jsIdxOpt (a : Json) (n : Nat) : Json :=
  match a with
  | .undefined => .undefined
  | .null => .undefined
  | v => jsIdxRaw v n

mutual
/-- `String(x)` coercion. -/
def jsToString : Json → String
  | .undefined => "undefined"
  | .null => "null"
  | .bool b => cond b "true" "false"
  | .num .nan => "NaN"
  | .num (.int i) => toString i
  | .str s => s
  | .arr xs => String.intercalate "," (arrElemStrings xs)
  | .obj _ => "[object Object]"

/-- Elements of `Array.prototype.toString`: nullish entries render as empty. -/
def arrElemStrings : List Json → List String
  | [] => []
  | .undefined :: rest => "" :: arrElemStrings rest
  | .null :: rest => "" :: arrElemStrings rest
  | x :: rest => jsToString x :: arrElemStrings rest
end

/-- Digits-only string to `Nat` (`none` when empty or any non-digit). -/
def digitsToNat : List Char → Option Nat
  | [] => none
  | cs => cs.foldl (fun acc c =>
      match acc with
      | none => none
      | some n => if c.isDigit then some (n * 10 + (c.toNat - '0'.toNat)) else none)
      (some 0)

/-- `s.trim()` (JS whitespace approximated by `Char.isWhitespace`). -/
def jsTrim (s : String) : String :=
  ⟨((s.data.dropWhile Char.isWhitespace).reverse.dropWhile Char.isWhitespace).reverse⟩

/-- `Number(s)` for a string: trim, empty is `0`, optional sign followed by
decimal digits; anything else is `NaN` (hex/fractional/exponent literals do
not occur in the verified claims). -/
def jsStringToNumber (s : String) : JsNum :=
  let t := jsTrim s
  match t.data with
  | [] => .int 0
  | '-' :: rest =>
    match digitsToNat rest with
    | some n => .int (-(n : Int))
    | none => .nan
  | '+' :: rest =>
    match digitsToNat rest with
    | some n => .int (n : Int)
    | none => .nan
  | cs =>
    match digitsToNat cs with
    | some n => .int (n : Int)
    | none => .nan

/-- `Number(x)` coercion. -/
def jsToNumber : Json → JsNum
  | .undefined => .nan
  | .null => .int 0
  | .bool b => cond b (.int 1) (.int 0)
  | .num n => n
  | .str s => jsStringToNumber s
  | .arr xs => jsStringToNumber (jsToString (.arr xs))
  | .obj _ => .nan

/-- `x + 1` on a JS number. -/
def jsAddOne : JsNum → JsNum
  | .nan => .nan
  | .int i => .int (i + 1)

/-- `x > 1` on a JS number (`NaN > 1` is false). -/
def jsGtOneB : JsNum → Bool
  | .nan => false
  | .int i => decide (1 < i)

/-- Does `needle` occur as a contiguous run inside `hay`? -/
def hasSub (hay needle : List Char) : Bool :=
  match hay with
  | [] => needle.isEmpty
  | _ :: tail => needle.isPrefixOf hay || hasSub tail needle

/-- `a.includes(b)`: substring test on strings, element test on arrays,
`TypeError` on other receivers (where `.includes` is not a function). -/
def jsIncludes (a : Json) (s : String) : Except String Bool :=
  match a with
  | .str t => .ok (hasSub t.data s.data)
  | .arr xs => .ok (xs.any (fun x => strictEqStr x s))
  | _ => .error "TypeError: a.includes is not a function"

/-- `Array.prototype.map` with a throwing callback: sequential, aborting at
the first thrown error, like the JS engine. -/
def exMap {α β : Type} (f : α → Except String β) : List α → Except String (List β)
  | [] => .ok []
  | x :: xs => do
    let y ← f x
    let ys ← exMap f xs
    return y :: ys

/-- `a.map(t => t.k)`: `TypeError` unless `a` is an array; the callback's
member access can itself throw on nullish elements. -/
def jsMapMember (a : Json) (k : String) : Except String (List Json) :=
  match a with
  | .arr xs => exMap (fun t => jsMember t k) xs
  | _ => .error "TypeError: a.map is not a function"

/-- `a.map(String)`: `TypeError` unless `a` is an array (`String` itself is total). -/
def jsMapToString (a : Json) : Except String (List Json) :=
  match a with
  | .arr xs => .ok (xs.map (fun x => .str (jsToString x)))
  | _ => .error "TypeError: a.map is not a function"

/-- Lower-case hex digit. -/
def hexDigit (n : Nat) : Char :=
  if n < 10 then Char.ofNat ('0'.toNat + n) else Char.ofNat ('A'.toNat + (n - 10))

/-- UTF-8 bytes of a character. -/
def utf8Bytes (c : Char) : List Nat :=
  let n := c.toNat
  if n < 0x80 then [n]
  else if n < 0x800 then [0xC0 + n / 64, 0x80 + n % 64]
  else if n < 0x10000 then [0xE0 + n / 4096, 0x80 + (n / 64) % 64, 0x80 + n % 64]
  else [0xF0 + n / 262144, 0x80 + (n / 4096) % 64, 0x80 + (n / 64) % 64, 0x80 + n % 64]

/-- Characters `encodeURIComponent` leaves unescaped. -/
def encUnreserved (c : Char) : Bool :=
  c.isAlphanum || c = '-' || c = '_' || c = '.' || c = '!' || c = '~' || c = '*' ||
    c = '\'' || c = '(' || c = ')'

/-- `encodeURIComponent(s)`: percent-encode the UTF-8 bytes of every
character outside the unreserved set. -/
def encodeURIComponent (s : String) : String :=
  String.join (s.data.map (fun c =>
    if encUnreserved c then String.singleton c
    else String.join ((utf8Bytes c).map (fun b =>
      "%" ++ String.singleton (hexDigit (b / 16)) ++ String.singleton (hexDigit (b % 16))))))

/-- `JSON.stringify` escaping of one character inside a string literal. -/
def jsonEscChar (c : Char) : String :=
  if c = '"' then "\\\""
  else if c = '\\' then "\\\\"
  else if c = '\x08' then "\\b"
  else if c = '\x0c' then "\\f"
  else if c = '\n' then "\\n"
  else if c = '\r' then "\\r"
  else if c = '\t' then "\\t"
  else if c.toNat < 0x20 then
    "\\u00" ++ String.singleton (hexDigit (c.toNat / 16)) ++ String.singleton (hexDigit (c.toNat % 16))
  else String.singleton c

/-- A JSON string literal with its quotes. -/
def jsonQuote (s : String) : String :=
  "\"" ++ String.join (s.data.map jsonEscChar) ++ "\""

mutual
/-- `JSON.stringify(x)` (top-level `undefined`, which never occurs in the
payloads this server stringifies, is rendered as `null`). -/
def jsonStringify : Json → String
  | .undefined => "null"
  | .null => "null"
  | .bool b => cond b "true" "false"
  | .num .nan => "null"
  | .num (.int i) => toString i
  | .str s => jsonQuote s
  | .arr xs => "[" ++ String.intercalate "," (stringifyElems xs) ++ "]"
  | .obj fs => "\x7b" ++ String.intercalate "," (stringifyFields fs) ++ "\x7d"

/-- Array elements: `undefined` entries stringify as `null`. -/
def stringifyElems : List Json → List String
  | [] => []
  | .undefined :: rest => "null" :: stringifyElems rest
  | x :: rest => jsonStringify x :: stringifyElems rest

/-- Object fields: `undefined`-valued fields are omitted. -/
def stringifyFields : List (String × Json) → List String
  | [] => []
  | (_, .undefined) :: rest => stringifyFields rest
  | (k, v) :: rest => (jsonQuote k ++ ":" ++ jsonStringify v) :: stringifyFields rest
end

/-- JSON whitespace. -/
def isJsonWs (c : Char) : Bool :=
  c = ' ' || c = '\t' || c = '\n' || c = '\r'

/-- Drop leading JSON whitespace. -/
def skipWs (cs : List Char) : List Char := cs.dropWhile isJsonWs

/-- Value of a hex digit. -/
def hexVal (c : Char) : Option Nat :=
  if '0' ≤ c ∧ c ≤ '9' then some (c.toNat - '0'.toNat)
  else if 'a' ≤ c ∧ c ≤ 'f' then some (c.toNat - 'a'.toNat + 10)
  else if 'A' ≤ c ∧ c ≤ 'F' then some (c.toNat - 'A'.toNat + 10)
  else none

/-- Parse the rest of a JSON string literal (after the opening quote). -/
def parseJsonString : List Char → Option (String × List Char)
  | [] => none
  | '"' :: rest => some ("", rest)
  | '\\' :: rest =>
    match rest with
    | 'u' :: h1 :: h2 :: h3 :: h4 :: rest' =>
      match hexVal h1, hexVal h2, hexVal h3, hexVal h4 with
      | some a, some b, some c, some d =>
        (parseJsonString rest').map (fun r =>
          (String.singleton (Char.ofNat (a * 4096 + b * 256 + c * 16 + d)) ++ r.1, r.2))
      | _, _, _, _ => none
    | e :: rest' =>
      let esc : Option Char :=
        if e = '"' then some '"'
        else if e = '\\' then some '\\'
        else if e = '/' then some '/'
        else if e = 'b' then some '\x08'
        else if e = 'f' then some '\x0c'
        else if e = 'n' then some '\n'
        else if e = 'r' then some '\r'
        else if e = 't' then some '\t'
        else none
      match esc with
      | some c => (parseJsonString rest').map (fun r => (String.singleton c ++ r.1, r.2))
      | none => none
    | [] => none
  | c :: rest =>
    if c.toNat < 0x20 then none
    else (parseJsonString rest).map (fun r => (String.singleton c ++ r.1, r.2))

/-- Parse a run of decimal digits. -/
def parseDigits (cs : List Char) : Option (Nat × List Char) :=
  let ds := cs.takeWhile Char.isDigit
  match digitsToNat ds with
  | some n => some (n, cs.drop ds.length)
  | none => none

/-- Parse a JSON number (the integer fragment; fractional and exponent
literals fall outside the verified claims, so inputs using them fail to
parse and flow into the parse-failure paths). -/
def parseJsonNumber (cs : List Char) : Option (Json × List Char) :=
  match cs with
  | '-' :: rest =>
    (parseDigits rest).map (fun r => (.num (.int (-(r.1 : Int))), r.2))
  | _ =>
    (parseDigits cs).map (fun r => (.num (.int (r.1 : Int)), r.2))

/-- Add a parsed object field; a duplicate key keeps its first position but
takes the later value, as in JavaScript. -/
def insertJsonField (fs : List (String × Json)) (k : String) (v : Json) : List (String × Json) :=
  match fs with
  | [] => [(k, v)]
  | (k', v') :: rest =>
    if k' == k then (k', v) :: rest else (k', v') :: insertJsonField rest k v

mutual
/-- Fueled recursive-descent JSON value parser. -/
def parseJsonVal : Nat → List Char → Option (Json × List Char)
  | 0, _ => none
  | fuel + 1, cs =>
    match skipWs cs with
    | '"' :: rest => (parseJsonString rest).map (fun r => (.str r.1, r.2))
    | 'n' :: 'u' :: 'l' :: 'l' :: rest => some (.null, rest)
    | 't' :: 'r' :: 'u' :: 'e' :: rest => some (.bool true, rest)
    | 'f' :: 'a' :: 'l' :: 's' :: 'e' :: rest => some (.bool false, rest)
    | '[' :: rest =>
      (match skipWs rest with
       | ']' :: rest' => some (.arr [], rest')
       | cs' => (parseJsonArrElems fuel cs').map (fun r => (.arr r.1, r.2)))
    | '\x7b' :: rest =>
      (match skipWs rest with
       | '\x7d' :: rest' => some (.obj [], rest')
       | cs' => (parseJsonObjFields fuel [] cs').map (fun r => (.obj r.1, r.2)))
    | cs' => parseJsonNumber cs'

/-- Array elements separated by commas, consuming the closing bracket. -/
def parseJsonArrElems : Nat → List Char → Option (List Json × List Char)
  | 0, _ => none
  | fuel + 1, cs =>
    match parseJsonVal fuel cs with
    | none => none
    | some (v, rest) =>
      match skipWs rest with
      | ',' :: rest' =>
        (parseJsonArrElems fuel rest').map (fun r => (v :: r.1, r.2))
      | ']' :: rest' => some ([v], rest')
      | _ => none

/-- Object fields separated by commas, consuming the closing brace. -/
def parseJsonObjFields : Nat → List (String × Json) → List Char → Option (List (String × Json) × List Char)
  | 0, _, _ => none
  | fuel + 1, acc, cs =>
    match skipWs cs with
    | '"' :: rest =>
      match parseJsonString rest with
      | none => none
      | some (k, rest') =>
        match skipWs rest' with
        | ':' :: rest2 =>
          match parseJsonVal fuel rest2 with
          | none => none
          | some (v, rest3) =>
            match skipWs rest3 with
            | ',' :: rest4 => parseJsonObjFields fuel (insertJsonField acc k v) rest4
            | '\x7d' :: rest4 => some (insertJsonField acc k v, rest4)
            | _ => none
        | _ => none
    | _ => none
end

/-- `JSON.parse` on a character list: parse one value and require only
trailing whitespace. -/
def jsonParseChars (cs : List Char) : Option Json :=
  match parseJsonVal (cs.length + 1) cs with
  | some (v, rest) => if (skipWs rest).isEmpty then some v else none
  | none => none

/-- `JSON.parse(s)` (returns `none` where JavaScript would throw). -/
def jsonParse (s : String) : Option Json := jsonParseChars s.data

end Js

namespace Proxy

open Js

/- ===== Configuration defaults (src/server.js lines 203-238; environment
overrides are modelled by the handlers' pool/locale parameters). ===== -/

def INVIDIOUS_BASE : String := "https://yewtu.be"
def PIPED_BASE : String := "https://pipedapi.kavin.rocks"
def SUGGEST_HL : String := "en"
def SUGGEST_GL : String := "US"
def CACHE_TTL_S : Nat := 600
/-- `CACHE_TTL_S * 1000`, the ttl passed to every cache write. -/
def cacheTTLms : Nat := CACHE_TTL_S * 1000

/-- One entry of the shared `lru-cache` store: rendered responses
(`{ status, body }`, written by `sendJson` under the inbound request key)
and raw upstream payloads (`{ value }` / `{ json }`, written under
`"UPSTREAM:" + url` keys). -/
inductive CEntry where
  | rendered (status : Nat) (body : String)
  | raw (v : Json)

/-- `hit.status`; raw entries carry no `status` field (they are never
stored under inbound path keys, so this projection is only read on
rendered entries in reachable states). -/
def CEntry.statusOf : CEntry → Nat
  | .rendered s _ => s
  | .raw _ => 0

/-- `hit.body`. -/
def CEntry.bodyOf : CEntry → String
  | .rendered _ b => b
  | .raw _ => ""

/-- `hit.value` (main revision) / `hit.json` (sibling revisions): the raw
payload, `undefined` on a rendered entry. -/
def CEntry.valueOf : CEntry → Json
  | .raw v => v
  | .rendered _ _ => .undefined

/-- The process-wide `LRUCache` keyed store with per-entry TTL expiry.
Recency bookkeeping and capacity eviction (`max: CACHE_MAX`) are not
exercised by the verified claims and are not modelled. -/
structure Cache where
  entries : List (String × Nat × CEntry)

/-- `cache.get(key)` at time `now`: present and unexpired. -/
def Cache.get (c : Cache) (now : Nat) (k : String) : Option CEntry :=
  match c.entries.find? (fun e => e.1 == k) with
  | some (_, exp, v) => if now < exp then some v else none
  | none => none

/-- `cache.set(key, value, { ttl })` at time `now`. -/
def Cache.set (c : Cache) (now ttl : Nat) (k : String) (v : CEntry) : Cache :=
  ⟨(k, now + ttl, v) :: c.entries.filter (fun e => !(e.1 == k))⟩

/-- The empty cache at process start. -/
def Cache.empty : Cache := ⟨[]⟩

/-- Per-request accumulation: the evolving shared cache and the list of
URLs actually fetched from the network (cache misses) by this request. -/
structure St where
  cache : Cache
  fetched : List String

/-- The outcome of one HTTP request: response status and serialized body,
the cache state afterwards, and the upstream URLs fetched on the way. -/
structure Out where
  status : Nat
  body : String
  cache : Cache
  fetched : List String

/-- `sendJson(res, key, payload, status)` (src/server.js lines 251-255):
stringify, store `{status, body}` in the rendered cache under the inbound
key, then send exactly that body. -/
def sendJsonOut (now : Nat) (c : Cache) (key : String) (fetched : List String)
    (payload : Json) (status : Nat) : Out :=
  let body := jsonStringify payload
  { status := status
    body := body
    cache := c.set now cacheTTLms key (.rendered status body)
    fetched := fetched }

/-- An upstream-behaviour oracle for JSON fetches: for each URL either the
parsed payload or the thrown error rendered as `String(e)`. Timeouts,
non-2xx statuses and malformed bodies are all `.error` outcomes. -/
def Upstream := String → Except String Json

/-- `getCached(key, fn)` / `getCachedJson(url, ...)`: serve the raw cache
when the `"UPSTREAM:" + url` key is live, otherwise fetch and store the
payload with the configured TTL. -/
def getCachedF (now : Nat) (up : Upstream) (url : String) (s : St) :
    Except String Json × St :=
  let key := "UPSTREAM:" ++ url
  match s.cache.get now key with
  | some e => (.ok e.valueOf, s)
  | none =>
    match up url with
    | .ok v => (.ok v, ⟨s.cache.set now cacheTTLms key (.raw v), s.fetched ++ [url]⟩)
    | .error m => (.error m, ⟨s.cache, s.fetched ++ [url]⟩)

/-- `firstResolved` (src/server.js lines 288-290): race all candidate
fetches with `Promise.any`; every candidate runs (and updates the raw
cache), the first fulfilled one wins. The temporal winner is modelled as
the first success in pool order. -/
def raceAll (now : Nat) (up : Upstream) (urls : List String) (s : St) :
    Except String Json × St :=
  let step := urls.foldl
    (fun (acc : Option Json × St) u =>
      let r := getCachedF now up u acc.2
      match acc.1, r.1 with
      | none, .ok v => (some v, r.2)
      | _, _ => (acc.1, r.2))
    (none, s)
  match step.1 with
  | some v => (.ok v, step.2)
  | none => (.error "AggregateError: All promises were rejected", step.2)

/-- `firstOk` (sequential variant in part_000/part_001): try candidates in
order, rethrowing the last error. -/
def firstOkGo (now : Nat) (up : Upstream) (lastErr : String) :
    List String → St → Except String Json × St
  | [], s => (.error lastErr, s)
  | u :: rest, s =>
    let r := getCachedF now up u s
    match r.1 with
    | .ok v => (.ok v, r.2)
    | .error m => firstOkGo now up m rest r.2

/-- `firstOk(urls)`: `throw lastErr || new Error("no upstream")`. -/
def firstOkSeq (now : Nat) (up : Upstream) (urls : List String) (s : St) :
    Except String Json × St :=
  firstOkGo now up "Error: no upstream" urls s

/- ===== Normalizers (src/server.js lines 294-309). ===== -/

/-- `normalizeVideo` (src/server.js lines 294-303). Member accesses and the
thumbnail `.map` can throw, exactly as in JavaScript. -/
def normalizeVideo (v : Json) : Except String Json := do
  let videoId ← jsMember v "videoId"
  let idField ← jsMember v "id"
  let title ← jsMember v "title"
  let author ← jsMember v "author"
  let uploader ← jsMember v "uploader"
  let channelName ← jsMember v "channelName"
  let authorId ← jsMember v "authorId"
  let uploaderId ← jsMember v "uploaderId"
  let channelId ← jsMember v "channelId"
  let lengthSeconds ← jsMember v "lengthSeconds"
  let duration ← jsMember v "duration"
  let viewCount ← jsMember v "viewCount"
  let views ← jsMember v "views"
  let publishedText ← jsMember v "publishedText"
  let uploadedDate ← jsMember v "uploadedDate"
  let videoThumbnails ← jsMember v "videoThumbnails"
  let thumbnails ← jsMember v "thumbnails"
  let thumbUrls ← jsMapMember (jsOr videoThumbnails (jsOr thumbnails (.arr []))) "url"
  return .obj
    [ ("id", jsOr videoId (jsOr idField .null))
    , ("title", jsOr title (.str ""))
    , ("channelName", jsOr author (jsOr uploader (jsOr channelName .null)))
    , ("channelId", jsOr authorId (jsOr uploaderId (jsOr channelId .null)))
    , ("durationSeconds", jsOr lengthSeconds (jsOr duration .null))
    , ("viewCount", .num (jsToNumber (jsOr viewCount (jsOr views (.num (.int 0))))))
    , ("publishedText", jsOr publishedText (jsOr uploadedDate .null))
    , ("thumbnails", .arr (thumbUrls.take 3)) ]

/-- `normalizeChannel` (src/server.js lines 305-309). -/
def normalizeChannel (c : Json) : Except String Json := do
  let authorId ← jsMember c "authorId"
  let idField ← jsMember c "id"
  let ucid ← jsMember c "ucid"
  let author ← jsMember c "author"
  let nameField ← jsMember c "name"
  let title ← jsMember c "title"
  let authorThumbnails ← jsMember c "authorThumbnails"
  let thumbnails ← jsMember c "thumbnails"
  return .obj
    [ ("id", jsOr authorId (jsOr idField (jsOr ucid .null)))
    , ("title", jsOr author (jsOr nameField (jsOr title (.str ""))))
    , ("avatar", jsOr (optChain (jsIdxRaw (jsOr authorThumbnails (jsOr thumbnails (.arr []))) 0) "url") .null) ]

/- ===== Item classification for /search and /channels (main revision). ===== -/

/-- `Array.isArray(raw) ? raw : (raw?.field ?? [])` — the list-shaped value
the handlers iterate over (still a JS value; `.map`/`.filter` on a
non-array throws later). -/
def coerceListVal (raw : Json) (field : String) : Json :=
  match raw with
  | .arr xs => .arr xs
  | r => jsOr (optChain r field) (.arr [])

/-- Applying `.map`/`.filter` to a non-array value throws. -/
def asArray : Json → Except String (List Json)
  | .arr xs => .ok xs
  | _ => .error "TypeError: value.map is not a function"

/-- The `/search` Invidious-tier item mapper (src/server.js lines 495-500). -/
def mapInvSearchItem (it : Json) : Except String (Option Json) := do
  let ty ← jsMember it "type"
  let videoId ← jsMember it "videoId"
  let authorId ← jsMember it "authorId"
  let channelId ← jsMember it "channelId"
  let playlistId ← jsMember it "playlistId"
  let title ← jsMember it "title"
  if strictEqStr ty "video" || truthy videoId then do
    let d ← normalizeVideo it
    return some (.obj [("kind", .str "video"), ("data", d)])
  else if strictEqStr ty "channel" || truthy authorId || truthy channelId then do
    let d ← normalizeChannel it
    return some (.obj [("kind", .str "channel"), ("data", d)])
  else if strictEqStr ty "playlist" || truthy playlistId then
    return some (.obj [("kind", .str "playlist"),
      ("data", .obj [("id", playlistId), ("title", jsOr title (.str ""))])])
  else
    return none

/-- The `/search` Piped-tier item mapper (src/server.js lines 508-513). -/
def mapPipSearchItem (it : Json) : Except String (Option Json) := do
  let ty ← jsMember it "type"
  if strictEqStr ty "video" then do
    let d ← normalizeVideo it
    return some (.obj [("kind", .str "video"), ("data", d)])
  else if strictEqStr ty "channel" then do
    let d ← normalizeChannel it
    return some (.obj [("kind", .str "channel"), ("data", d)])
  else if strictEqStr ty "playlist" then do
    let playlistId ← jsMember it "playlistId"
    let idField ← jsMember it "id"
    let title ← jsMember it "title"
    return some (.obj [("kind", .str "playlist"),
      ("data", .obj [("id", jsOr playlistId idField), ("title", jsOr title (.str ""))])])
  else
    return none

/-- `.map(mapper).filter(Boolean)`: the mapper's `null` results are
dropped; every `some` is an object, hence truthy. -/
def mapFilterItems (mapper : Json → Except String (Option Json)) (xs : List Json) :
    Except String (List Json) := do
  let ms ← exMap mapper xs
  return ms.filterMap id

/-- `/channels` Invidious-tier filter predicate
`(x.type ?? "").includes("channel") || x.authorId || x.channelId`
(src/server.js line 450). -/
def invChannelPred (x : Json) : Except String Bool := do
  let ty ← jsMember x "type"
  let inc ← jsIncludes (jsOr ty (.str "")) "channel"
  if inc then
    return true
  else do
    let authorId ← jsMember x "authorId"
    let channelId ← jsMember x "channelId"
    return truthy authorId || truthy channelId

/-- `/channels` Piped-tier filter predicate
`x.type === "channel" || x.authorId || x.channelId` (src/server.js line 458). -/
def pipChannelPred (x : Json) : Except String Bool := do
  let ty ← jsMember x "type"
  if strictEqStr ty "channel" then
    return true
  else do
    let authorId ← jsMember x "authorId"
    let channelId ← jsMember x "channelId"
    return truthy authorId || truthy channelId

/-- `Array.prototype.filter` with a throwing predicate. -/
def exFilter (p : Json → Except String Bool) : List Json → Except String (List Json)
  | [] => .ok []
  | x :: xs => do
    let b ← p x
    let rest ← exFilter p xs
    return if b then x :: rest else rest

/-- `.map((x) => ({ kind: "channel", data: normalizeChannel(x) }))`. -/
def channelItemsOf (xs : List Json) : Except String (List Json) :=
  exMap (fun x => do
    let d ← normalizeChannel x
    return Json.obj [("kind", .str "channel"), ("data", d)]) xs

/- ===== YT HTML scraper fallback (src/server.js lines 311-384). ===== -/

/-- Rest of `cs` after a literal prefix, if it starts with it. -/
def litPre (lit cs : List Char) : Option (List Char) :=
  if lit.isPrefixOf cs then some (cs.drop lit.length) else none

/-- Split at the first occurrence of `needle`: the part before it and the
part after it. -/
def splitFirst (needle : List Char) : List Char → Option (List Char × List Char)
  | [] => if needle.isEmpty then some ([], []) else none
  | c :: rest =>
    if needle.isPrefixOf (c :: rest) then some ([], (c :: rest).drop needle.length)
    else (splitFirst needle rest).map (fun r => (c :: r.1, r.2))

/-- Regex `\s*` (JS whitespace approximated by `Char.isWhitespace`). -/
def dropWsJs (cs : List Char) : List Char := cs.dropWhile Char.isWhitespace

def pat1Lit : List Char := "var ytInitialData = ".data
def scriptCloseLit : List Char := ";</script>".data
def pat2Lit : List Char := "\"ytInitialData\":".data
def ytcfgLit : List Char := "\"ytcfg\"".data
def pat3Lit : List Char := "window[\"ytInitialData\"]".data

/-- Capture of `/var ytInitialData = (.*?);<\/script>/s`: the text between
the first occurrence of the prefix literal and the first `";</script>"`
after it (lazy `.*?` with `/s`). -/
def matchPat1 (cs : List Char) : Option (List Char) :=
  match splitFirst pat1Lit cs with
  | none => none
  | some (_, rest) =>
    match splitFirst scriptCloseLit rest with
    | none => none
    | some (cap, _) => some cap

/-- Does a suffix start with `\s*,\s*"ytcfg"`? -/
def pat2Tail (cs : List Char) : Bool :=
  match dropWsJs cs with
  | ',' :: r => (litPre ytcfgLit (dropWsJs r)).isSome
  | _ => false

/-- Lazy capture `(\{.*?\})` followed by `\s*,\s*"ytcfg"`: extend the
capture one character at a time, stopping at the first closing brace whose
tail matches. -/
def pat2Cap (acc : List Char) : List Char → Option (List Char)
  | [] => none
  | c :: rest =>
    if c = '\x7d' && pat2Tail rest then some (acc ++ ['\x7d'])
    else pat2Cap (acc ++ [c]) rest

/-- Capture of `/"ytInitialData":(\{.*?\})\s*,\s*"ytcfg"/s`, scanning start
positions left to right. -/
def pat2Scan : List Char → Option (List Char)
  | [] => none
  | c :: rest =>
    match litPre pat2Lit (c :: rest) with
    | some r1 =>
      (match r1 with
       | '\x7b' :: r2 =>
         (match pat2Cap ['\x7b'] r2 with
          | some cap => some cap
          | none => pat2Scan rest)
       | _ => pat2Scan rest)
    | none => pat2Scan rest

/-- Capture of `/window\["ytInitialData"\]\s*=\s*(.*?);<\/script>/s`,
scanning start positions left to right. -/
def pat3Scan : List Char → Option (List Char)
  | [] => none
  | c :: rest =>
    match litPre pat3Lit (c :: rest) with
    | some r1 =>
      (match dropWsJs r1 with
       | '=' :: r2 =>
         (match splitFirst scriptCloseLit (dropWsJs r2) with
          | some (cap, _) => some cap
          | none => pat3Scan rest)
       | _ => pat3Scan rest)
    | none => pat3Scan rest

/-- `if (m && m[1]) try { return JSON.parse(m[1]) } catch {}`: an absent or
empty capture, or one that fails to parse, moves on to the next pattern. -/
def tryCapture (cap : Option (List Char)) : Option Json :=
  match cap with
  | some c => if c.isEmpty then none else jsonParseChars c
  | none => none

/-- `extractJSONFromHTML(html)` (src/server.js lines 313-327): try the three
known textual patterns in order and return the first parseable capture,
`null` (here `none`) when all fail. -/
def extractJSONFromHTML (html : String) : Option Json :=
  let cs := html.data
  match tryCapture (matchPat1 cs) with
  | some j => some j
  | none =>
    match tryCapture (pat2Scan cs) with
    | some j => some j
    | none => tryCapture (pat3Scan cs)

mutual
/-- `collectRenderers(root, key)` (src/server.js lines 329-340): depth-first
pre-order walk over arrays and objects, collecting every truthy `key`
field. -/
def collectRenderers (root : Json) (key : String) : List Json :=
  match root with
  | .arr xs => collectListR xs key
  | .obj fs =>
    (if truthy (jsGet (.obj fs) key) then [jsGet (.obj fs) key] else []) ++
      collectFieldsR fs key
  | _ => []

/-- `n.forEach(walk)` over an array. -/
def collectListR (xs : List Json) (key : String) : List Json :=
  match xs with
  | [] => []
  | x :: rest => collectRenderers x key ++ collectListR rest key

/-- `for (const k in n) walk(n[k])` over an object's fields. -/
def collectFieldsR (fs : List (String × Json)) (key : String) : List Json :=
  match fs with
  | [] => []
  | (_, v) :: rest => collectRenderers v key ++ collectFieldsR rest key
end

/-- One `videoRenderer` mapped to a canonical item
(src/server.js lines 344-358). -/
def scrapeVideoItem (v : Json) : Except String Json := do
  let videoId ← jsMember v "videoId"
  let title ← jsMember v "title"
  let ownerText ← jsMember v "ownerText"
  let longByline ← jsMember v "longBylineText"
  let publishedTimeText ← jsMember v "publishedTimeText"
  let thumbnail ← jsMember v "thumbnail"
  let ownerRun0 := jsIdxOpt (optChain ownerText "runs") 0
  let bylineRun0 := jsIdxOpt (optChain longByline "runs") 0
  let thumbs ← jsMapMember (jsOrT (optChain thumbnail "thumbnails") (.arr [])) "url"
  return .obj [("kind", .str "video"), ("data", .obj
    [ ("id", videoId)
    , ("title", jsOrT (optChain (jsIdxOpt (optChain title "runs") 0) "text") (.str ""))
    , ("channelName", jsOrT (optChain ownerRun0 "text") (jsOrT (optChain bylineRun0 "text") .null))
    , ("channelId",
        jsOrT (optChain (optChain (optChain ownerRun0 "navigationEndpoint") "browseEndpoint") "browseId")
          (jsOrT (optChain (optChain (optChain bylineRun0 "navigationEndpoint") "browseEndpoint") "browseId") .null))
    , ("durationSeconds", .null)
    , ("viewCount", .null)
    , ("publishedText", jsOrT (optChain publishedTimeText "simpleText") .null)
    , ("thumbnails", .arr (thumbs.take 3)) ])]

/-- One `channelRenderer` mapped to a canonical item
(src/server.js lines 363-371). -/
def scrapeChannelItem (c : Json) : Except String Json := do
  let channelId ← jsMember c "channelId"
  let navEp ← jsMember c "navigationEndpoint"
  let title ← jsMember c "title"
  let thumbnail ← jsMember c "thumbnail"
  return .obj [("kind", .str "channel"), ("data", .obj
    [ ("id", jsOrT channelId (jsOrT (optChain (optChain navEp "browseEndpoint") "browseId") .null))
    , ("title", jsOrT (optChain title "simpleText")
        (jsOrT (optChain (jsIdxOpt (optChain title "runs") 0) "text") (.str "")))
    , ("avatar", jsOrT (optChain (jsIdxRaw (jsOrT (optChain thumbnail "thumbnails") (.arr [])) 0) "url") .null) ])]

/-- YouTube results-page URL built by `ytHtmlFallbackSearch` (the locale
parameters are interpolated unencoded, as in the source). -/
def ytSearchUrl (hl gl q : String) : String :=
  "https://www.youtube.com/results?search_query=" ++ encodeURIComponent q ++
    "&hl=" ++ hl ++ "&gl=" ++ gl

/-- `ytHtmlFallbackSearch(q)` (src/server.js lines 373-384), over an oracle
for `fetchText`. Returns the payload (or the thrown error) and the URL
fetched. -/
def ytHtmlFallbackSearch (upText : String → Except String String) (hl gl q : String) :
    Except String Json × List String :=
  let url := ytSearchUrl hl gl q
  match upText url with
  | .error m => (.error m, [url])
  | .ok html =>
    match extractJSONFromHTML html with
    | none => (.ok (.obj [("items", .arr []), ("nextPage", .num (.int 2)),
        ("error", .str "yt_html_parse_failed")]), [url])
    | some d =>
      match (do
        let vids ← exMap scrapeVideoItem (collectRenderers d "videoRenderer")
        let chans ← exMap scrapeChannelItem (collectRenderers d "channelRenderer")
        Except.ok (Json.obj [("items", .arr (vids ++ chans)), ("nextPage", .num (.int 2))])) with
      | .ok payload => (.ok payload, [url])
      | .error m => (.error m, [url])

/- ===== Candidate URL builders. ===== -/

def invSuggestUrl (base q : String) : String :=
  base ++ "/api/v1/search/suggestions?q=" ++ encodeURIComponent q
def pipSuggestUrl1 (base q : String) : String :=
  base ++ "/suggestions?query=" ++ encodeURIComponent q
def pipSuggestUrl2 (base q : String) : String :=
  base ++ "/api/v1/suggestions?q=" ++ encodeURIComponent q
def googleSuggestUrl (hl gl q : String) : String :=
  "https://suggestqueries.google.com/complete/search?client=firefox&ds=yt&hl=" ++
    encodeURIComponent hl ++ "&gl=" ++ encodeURIComponent gl ++ "&q=" ++ encodeURIComponent q
def invSearchUrl (base q pageS : String) : String :=
  base ++ "/api/v1/search?q=" ++ encodeURIComponent q ++ "&page=" ++ pageS
def pipSearchUrl1 (base q pageS : String) : String :=
  base ++ "/search?query=" ++ encodeURIComponent q ++ "&page=" ++ pageS
def pipSearchUrl2 (base q pageS : String) : String :=
  base ++ "/api/v1/search?q=" ++ encodeURIComponent q ++ "&page=" ++ pageS
def invChannelsUrl (base q pageS : String) : String :=
  base ++ "/api/v1/search?q=" ++ encodeURIComponent ("type:channel " ++ q) ++ "&page=" ++ pageS
def pipChannelsUrl1 (base q pageS : String) : String :=
  base ++ "/search?query=" ++ encodeURIComponent q ++ "&filter=channels&page=" ++ pageS
def pipChannelsUrl2 (base q pageS : String) : String :=
  base ++ "/api/v1/search?q=" ++ encodeURIComponent q ++ "&filter=channels&page=" ++ pageS

/-- `String(req.query.q || "").trim()` for a possibly-absent parameter. -/
def trimmedQ (qp : Option String) : String := jsTrim (qp.getD "")

/-- `Number(req.query.page || 1)`. -/
def pageOf (pp : Option String) : JsNum :=
  match pp with
  | none => .int 1
  | some s => if s = "" then .int 1 else jsStringToNumber s

/-- `Array.isArray(raw) && Array.isArray(raw[1]) ? raw[1] : []` (the Google
suggest payload shape). -/
def googleListVal (raw : Json) : Json :=
  match raw with
  | .arr xs =>
    match xs.get? 1 with
    | some (.arr ys) => .arr ys
    | _ => .arr []
  | _ => .arr []

/- ===== /suggest, main revision (src/server.js lines 389-425). ===== -/

/-- The body of the `/suggest` try block: race Invidious, then Piped, then
fetch Google suggest; extract the list and build
`{ suggestions: list.map(String).slice(0, 10) }`. An `.error` result is
what the outer catch receives. -/
def suggestAttempt (now : Nat) (up : Upstream) (invPool pipPool : List String)
    (hl gl q : String) (s0 : St) : Except String Json × St :=
  let invUrls := invPool.map (fun base => invSuggestUrl base q)
  let pipUrls1 := pipPool.map (fun base => pipSuggestUrl1 base q)
  let pipUrls2 := pipPool.map (fun base => pipSuggestUrl2 base q)
  let r1 := raceAll now up invUrls s0
  let listRes : Except String Json × St :=
    match r1.1 with
    | .ok raw => (.ok (coerceListVal raw "suggestions"), r1.2)
    | .error _ =>
      let r2 := raceAll now up (pipUrls1 ++ pipUrls2) r1.2
      match r2.1 with
      | .ok raw => (.ok (coerceListVal raw "suggestions"), r2.2)
      | .error _ =>
        let gUrl := googleSuggestUrl hl gl q
        let r3 := getCachedF now up gUrl r2.2
        match r3.1 with
        | .ok raw => (.ok (googleListVal raw), r3.2)
        | .error m => (.error m, r3.2)
  match listRes.1 with
  | .error m => (.error m, listRes.2)
  | .ok lst =>
    match jsMapToString lst with
    | .ok strs => (.ok (.obj [("suggestions", .arr (strs.take 10))]), listRes.2)
    | .error m => (.error m, listRes.2)

/-- `app.get("/suggest")` of the main revision: rendered-cache check,
empty-query guard, the try block, and the catch that degrades to
`{ suggestions: [], error: "upstream_unavailable" }` with status 200. -/
def suggestHandler (now : Nat) (c : Cache) (up : Upstream)
    (invPool pipPool : List String) (hl gl : String)
    (qp : Option String) (url : String) : Out :=
  let q := trimmedQ qp
  match c.get now url with
  | some e => ⟨e.statusOf, e.bodyOf, c, []⟩
  | none =>
    if q = "" then
      sendJsonOut now c url [] (.obj [("suggestions", .arr [])]) 200
    else
      match suggestAttempt now up invPool pipPool hl gl q ⟨c, []⟩ with
      | (.ok payload, s) => sendJsonOut now s.cache url s.fetched payload 200
      | (.error _, s) =>
        sendJsonOut now s.cache url s.fetched
          (.obj [("suggestions", .arr []), ("error", .str "upstream_unavailable")]) 200

/- ===== /search, main revision (src/server.js lines 474-528). ===== -/

/-- The body of the `/search` try block: Invidious race and mapping, then
Piped race and mapping, then (page 1 only) the HTML-scrape fallback. -/
def searchAttempt (now : Nat) (up : Upstream) (upText : String → Except String String)
    (invPool pipPool : List String) (hl gl q : String) (page : JsNum) (s0 : St) :
    Except String Json × St :=
  let pageS := jsToString (.num page)
  let invUrls := invPool.map (fun base => invSearchUrl base q pageS)
  let pipUrls := pipPool.map (fun base => pipSearchUrl1 base q pageS) ++
    pipPool.map (fun base => pipSearchUrl2 base q pageS)
  let r1 := raceAll now up invUrls s0
  let t1 : Except String Json × St :=
    match r1.1 with
    | .ok raw =>
      (match (do
          let xs ← asArray (coerceListVal raw "items")
          let items ← mapFilterItems mapInvSearchItem xs
          Except.ok (Json.obj [("items", .arr items), ("nextPage", .num (jsAddOne page))])) with
       | .ok p => (.ok p, r1.2)
       | .error m => (.error m, r1.2))
    | .error m => (.error m, r1.2)
  match t1.1 with
  | .ok p => (.ok p, t1.2)
  | .error _ =>
    let r2 := raceAll now up pipUrls t1.2
    let t2 : Except String Json × St :=
      match r2.1 with
      | .ok raw =>
        (match (do
            let xs ← asArray (coerceListVal raw "items")
            let items ← mapFilterItems mapPipSearchItem xs
            Except.ok (Json.obj [("items", .arr items), ("nextPage", .num (jsAddOne page))])) with
         | .ok p => (.ok p, r2.2)
         | .error m => (.error m, r2.2))
      | .error m => (.error m, r2.2)
    match t2.1 with
    | .ok p => (.ok p, t2.2)
    | .error _ =>
      if jsGtOneB page then
        (.ok (.obj [("items", .arr []), ("nextPage", .num (jsAddOne page)),
          ("error", .str "upstream_unavailable")]), t2.2)
      else
        let fb := ytHtmlFallbackSearch upText hl gl q
        (fb.1, ⟨t2.2.cache, t2.2.fetched ++ fb.2⟩)

/-- `app.get("/search")` of the main revision. -/
def searchHandler (now : Nat) (c : Cache) (up : Upstream)
    (upText : String → Except String String) (invPool pipPool : List String)
    (hl gl : String) (qp pp : Option String) (url : String) : Out :=
  let q := trimmedQ qp
  let page := pageOf pp
  match c.get now url with
  | some e => ⟨e.statusOf, e.bodyOf, c, []⟩
  | none =>
    if q = "" then
      sendJsonOut now c url [] (.obj [("items", .arr []), ("nextPage", .null)]) 200
    else
      match searchAttempt now up upText invPool pipPool hl gl q page ⟨c, []⟩ with
      | (.ok payload, s) => sendJsonOut now s.cache url s.fetched payload 200
      | (.error _, s) =>
        sendJsonOut now s.cache url s.fetched
          (.obj [("items", .arr []), ("nextPage", .num (jsAddOne page)),
            ("error", .str "upstream_unavailable")]) 200

/- ===== /channels, main revision (src/server.js lines 428-471). ===== -/

/-- Filter of the HTML-fallback payload:
`fb.items.filter(it => it.kind === "channel")`. -/
def fbChannelsOnly (fbp : Json) : Except String (List Json) := do
  let itemsV ← jsMember fbp "items"
  let xs ← asArray itemsV
  exFilter (fun it => do
    let k ← jsMember it "kind"
    Except.ok (strictEqStr k "channel")) xs

/-- The body of the `/channels` try block: Invidious race with
filter-and-normalize, then Piped race, then the HTML fallback restricted to
channel items (always annotated with the soft-failure marker). -/
def channelsAttempt (now : Nat) (up : Upstream) (upText : String → Except String String)
    (invPool pipPool : List String) (hl gl q : String) (page : JsNum) (s0 : St) :
    Except String Json × St :=
  let pageS := jsToString (.num page)
  let invUrls := invPool.map (fun base => invChannelsUrl base q pageS)
  let pipUrls := pipPool.map (fun base => pipChannelsUrl1 base q pageS) ++
    pipPool.map (fun base => pipChannelsUrl2 base q pageS)
  let r1 := raceAll now up invUrls s0
  let t1 : Except String Json × St :=
    match r1.1 with
    | .ok raw =>
      (match (do
          let xs ← asArray (coerceListVal raw "items")
          let flt ← exFilter invChannelPred xs
          let items ← channelItemsOf flt
          Except.ok (Json.obj [("items", .arr items), ("nextPage", .num (jsAddOne page))])) with
       | .ok p => (.ok p, r1.2)
       | .error m => (.error m, r1.2))
    | .error m => (.error m, r1.2)
  match t1.1 with
  | .ok p => (.ok p, t1.2)
  | .error _ =>
    let r2 := raceAll now up pipUrls t1.2
    let t2 : Except String Json × St :=
      match r2.1 with
      | .ok raw =>
        (match (do
            let xs ← asArray (coerceListVal raw "items")
            let flt ← exFilter pipChannelPred xs
            let items ← channelItemsOf flt
            Except.ok (Json.obj [("items", .arr items), ("nextPage", .num (jsAddOne page))])) with
         | .ok p => (.ok p, r2.2)
         | .error m => (.error m, r2.2))
      | .error m => (.error m, r2.2)
    match t2.1 with
    | .ok p => (.ok p, t2.2)
    | .error _ =>
      let fb := ytHtmlFallbackSearch upText hl gl q
      let s3 : St := ⟨t2.2.cache, t2.2.fetched ++ fb.2⟩
      match fb.1 with
      | .error m => (.error m, s3)
      | .ok fbp =>
        match fbChannelsOnly fbp with
        | .ok items =>
          (.ok (.obj [("items", .arr items), ("nextPage", .num (jsAddOne page)),
            ("error", .str "upstream_unavailable")]), s3)
        | .error m => (.error m, s3)

/-- `app.get("/channels")` of the main revision. -/
def channelsHandler (now : Nat) (c : Cache) (up : Upstream)
    (upText : String → Except String String) (invPool pipPool : List String)
    (hl gl : String) (qp pp : Option String) (url : String) : Out :=
  let q := trimmedQ qp
  let page := pageOf pp
  match c.get now url with
  | some e => ⟨e.statusOf, e.bodyOf, c, []⟩
  | none =>
    if q = "" then
      sendJsonOut now c url [] (.obj [("items", .arr []), ("nextPage", .null)]) 200
    else
      match channelsAttempt now up upText invPool pipPool hl gl q page ⟨c, []⟩ with
      | (.ok payload, s) => sendJsonOut now s.cache url s.fetched payload 200
      | (.error _, s) =>
        sendJsonOut now s.cache url s.fetched
          (.obj [("items", .arr []), ("nextPage", .num (jsAddOne page)),
            ("error", .str "upstream_unavailable")]) 200

/- ===== /suggest, part_000 revision (src/unnamed/part_000 lines 111-162). ===== -/

/-- One suggestion tier of the part_000 revision: on a fetched payload,
extract the list and return the capped response only when the list is a
non-empty array — an empty or non-list result falls through, exactly like
an error (`// fallthrough if empty`). -/
def p000suggestTier (raw : Except String Json) : Option Json :=
  match raw with
  | .error _ => none
  | .ok r =>
    match coerceListVal r "suggestions" with
    | .arr (x :: xs) =>
      some (.obj [("suggestions",
        .arr (((x :: xs).map (fun j => Json.str (jsToString j))).take 10))])
    | _ => none

/-- The `/suggest` tier cascade of the part_000 revision: sequential
`firstOk` over Invidious, then Piped (both with empty-fallthrough), then
Google suggest, then the soft-failure marker with status 200. -/
def p000suggestCore (now : Nat) (up : Upstream) (invPool pipPool : List String)
    (hl gl q : String) (s0 : St) : (Json × Nat) × St :=
  let invUrls := invPool.map (fun base => invSuggestUrl base q)
  let r1 := firstOkSeq now up invUrls s0
  match p000suggestTier r1.1 with
  | some payload => ((payload, 200), r1.2)
  | none =>
    let pipUrls := pipPool.map (fun base => pipSuggestUrl1 base q)
    let r2 := firstOkSeq now up pipUrls r1.2
    match p000suggestTier r2.1 with
    | some payload => ((payload, 200), r2.2)
    | none =>
      let gUrl := googleSuggestUrl hl gl q
      let r3 := getCachedF now up gUrl r2.2
      match r3.1 with
      | .ok raw =>
        ((.obj [("suggestions",
          .arr ((match googleListVal raw with
            | .arr ys => ys.map (fun j => Json.str (jsToString j))
            | _ => []).take 10))], 200), r3.2)
      | .error _ =>
        ((.obj [("suggestions", .arr []), ("error", .str "upstream_unavailable")], 200), r3.2)

/-- `app.get("/suggest")` of the part_000 revision (its outer catch, which
returns `{ suggestions: [], error: "unexpected" }` with status 200, is
unreachable in this model because every throwing step sits inside an inner
catch). -/
def p000suggestHandler (now : Nat) (c : Cache) (up : Upstream)
    (invPool pipPool : List String) (hl gl : String)
    (qp : Option String) (url : String) : Out :=
  let q := trimmedQ qp
  match c.get now url with
  | some e => ⟨e.statusOf, e.bodyOf, c, []⟩
  | none =>
    if q = "" then
      sendJsonOut now c url [] (.obj [("suggestions", .arr [])]) 200
    else
      match p000suggestCore now up invPool pipPool hl gl q ⟨c, []⟩ with
      | ((payload, status), s) => sendJsonOut now s.cache url s.fetched payload status

/- ===== /suggest, part_001 revision (src/unnamed/part_001 lines 65-89). ===== -/

/-- The Piped fallback branch of the part_001 `/suggest`: its errors
propagate to the outer catch. Note the absence of any `.slice(0, 10)`. -/
def p001pipBranch (now : Nat) (up : Upstream) (pipBase q : String) (s : St) :
    Except String Json × St :=
  let u2 := pipSuggestUrl1 pipBase q
  let r2 := getCachedF now up u2 s
  match r2.1 with
  | .ok raw =>
    (match jsMapToString (jsOr raw (.arr [])) with
     | .ok strs => (.ok (.obj [("suggestions", .arr strs)]), r2.2)
     | .error m => (.error m, r2.2))
  | .error m => (.error m, r2.2)

/-- The part_001 `/suggest` body after the guards: try Invidious (errors in
the fetch, the plain `raw.suggestions` access, or `.map(String)` fall to the
Piped branch); Piped errors escape to the outer catch. -/
def p001suggestCore (now : Nat) (up : Upstream) (invBase pipBase q : String) (s0 : St) :
    Except String Json × St :=
  let u1 := invSuggestUrl invBase q
  let r1 := getCachedF now up u1 s0
  let invRes : Except String Json × St :=
    match r1.1 with
    | .ok raw =>
      (match (do
          let lst ← (match raw with
            | .arr xs => Except.ok (Json.arr xs)
            | r => do
              let sg ← jsMember r "suggestions"
              Except.ok (jsOr sg (.arr [])))
          let strs ← jsMapToString lst
          Except.ok (Json.obj [("suggestions", .arr strs)])) with
       | .ok payload => (.ok payload, r1.2)
       | .error m => (.error m, r1.2))
    | .error m => (.error m, r1.2)
  match invRes.1 with
  | .ok payload => (.ok payload, invRes.2)
  | .error _ => p001pipBranch now up pipBase q invRes.2

/-- `app.get("/suggest")` of the part_001 revision: the outer catch returns
`{ suggestions: [], error: String(e) }` with status **502** (upstream error
strings are already in their `String(e)` display form). -/
def p001suggestHandler (now : Nat) (c : Cache) (up : Upstream)
    (invBase pipBase : String) (qp : Option String) (url : String) : Out :=
  let q := trimmedQ qp
  match c.get now url with
  | some e => ⟨e.statusOf, e.bodyOf, c, []⟩
  | none =>
    if q = "" then
      sendJsonOut now c url [] (.obj [("suggestions", .arr [])]) 200
    else
      match p001suggestCore now up invBase pipBase q ⟨c, []⟩ with
      | (.ok payload, s) => sendJsonOut now s.cache url s.fetched payload 200
      | (.error m, s) =>
        sendJsonOut now s.cache url s.fetched
          (.obj [("suggestions", .arr []), ("error", .str m)]) 502

end Proxy

open Js Proxy

/- ===== Helper lemmas and fixtures. ===== -/

/-- The value of a successful normalization, for stating theorems. -/
def resultOf (r : Except String Json) : Json :=
  match r with
  | .ok v => v
  | .error _ => .null

/-- An upstream where every candidate fails. -/
def upDown : Upstream := fun _ => .error "Error: fetch failed"

/-- An upstream where every JSON candidate yields an empty array. -/
def upEmptyList : Upstream := fun _ => .ok (.arr [])

/-- A text fetch that always fails (the HTML tier is then also exhausted). -/
def upTextDown : String → Except String String := fun _ => .error "Error: fetch failed"

theorem cache_get_set_self (c : Cache) (now ttl : Nat) (k : String) (v : CEntry)
    (now2 : Nat) (h : now2 < now + ttl) :
    (c.set now ttl k v).get now2 k = some v := by
  simp [Cache.get, Cache.set, List.find?, h]

theorem sendJsonOut_get (now : Nat) (c : Cache) (key : String) (fetched : List String)
    (payload : Json) (status : Nat) (now2 : Nat) (h : now2 < now + cacheTTLms) :
    (sendJsonOut now c key fetched payload status).cache.get now2 key =
      some (.rendered (sendJsonOut now c key fetched payload status).status
        (sendJsonOut now c key fetched payload status).body) := by
  simp [sendJsonOut, cache_get_set_self _ _ _ _ _ _ h]

/- ===== C3 ===== -/

/-- C3: a rendered-cache hit for the exact inbound request key returns the
previously stored status code and byte-identical body, leaves the cache
untouched, and performs no upstream fetch, normalization, or fallback
step — the handler output is exactly the stored pair, for all three
endpoints. -/
theorem c3_rendered_cache_hit
    (now : Nat) (c : Cache) (up : Upstream) (upText : String → Except String String)
    (invPool pipPool : List String) (hl gl : String) (qp pp : Option String)
    (url : String) (s : Nat) (b : String)
    (h : c.get now url = some (.rendered s b)) :
    suggestHandler now c up invPool pipPool hl gl qp url = ⟨s, b, c, []⟩ ∧
    searchHandler now c up upText invPool pipPool hl gl qp pp url = ⟨s, b, c, []⟩ ∧
    channelsHandler now c up upText invPool pipPool hl gl qp pp url = ⟨s, b, c, []⟩ := by
  refine ⟨?_, ?_, ?_⟩ <;>
    simp [suggestHandler, searchHandler, channelsHandler, h,
      CEntry.statusOf, CEntry.bodyOf]

/-- A concrete cache holding a rendered entry, for the C3 witness. -/
def c3cache : Cache :=
  Cache.set Cache.empty 0 cacheTTLms "/search?q=x" (.rendered 200 "CACHED-BODY")

/-- Witness for C3 at a concrete cached request. -/
theorem c3_rendered_cache_hit_witness :
    suggestHandler 1 c3cache upDown ["https://yewtu.be"] ["https://pipedapi.kavin.rocks"]
        "en" "US" (some "x") "/search?q=x" = ⟨200, "CACHED-BODY", c3cache, []⟩ ∧
    searchHandler 1 c3cache upDown upTextDown ["https://yewtu.be"] ["https://pipedapi.kavin.rocks"]
        "en" "US" (some "x") none "/search?q=x" = ⟨200, "CACHED-BODY", c3cache, []⟩ ∧
    channelsHandler 1 c3cache upDown upTextDown ["https://yewtu.be"] ["https://pipedapi.kavin.rocks"]
        "en" "US" (some "x") none "/search?q=x" = ⟨200, "CACHED-BODY", c3cache, []⟩ :=
  c3_rendered_cache_hit 1 c3cache upDown upTextDown
    ["https://yewtu.be"] ["https://pipedapi.kavin.rocks"] "en" "US"
    (some "x") none "/search?q=x" 200 "CACHED-BODY" rfl

/- ===== C7 ===== -/

/-- C7: a missing or empty `q` short-circuits all three endpoints to the
empty canonical result (`{ suggestions: [] }` or
`{ items: [], nextPage: null }`) with status 200 and no upstream fetch. -/
theorem c7_empty_query_short_circuit
    (now : Nat) (c : Cache) (up : Upstream) (upText : String → Except String String)
    (invPool pipPool : List String) (hl gl : String) (qp pp : Option String)
    (url : String) (hq : qp = none ∨ qp = some "") (hmiss : c.get now url = none) :
    suggestHandler now c up invPool pipPool hl gl qp url =
      sendJsonOut now c url [] (.obj [("suggestions", .arr [])]) 200 ∧
    searchHandler now c up upText invPool pipPool hl gl qp pp url =
      sendJsonOut now c url [] (.obj [("items", .arr []), ("nextPage", .null)]) 200 ∧
    channelsHandler now c up upText invPool pipPool hl gl qp pp url =
      sendJsonOut now c url [] (.obj [("items", .arr []), ("nextPage", .null)]) 200 := by
  have ht : trimmedQ qp = "" := by
    rcases hq with hq | hq <;> subst hq <;> rfl
  exact ⟨by simp [suggestHandler, hmiss, ht],
         by simp [searchHandler, hmiss, ht],
         by simp [channelsHandler, hmiss, ht]⟩

/-- Witness for C7: concrete absent query against the empty cache; no URL
is fetched and the response bodies are the serialized empty results. -/
theorem c7_empty_query_short_circuit_witness :
    (suggestHandler 0 Cache.empty upDown ["https://yewtu.be"] ["https://pipedapi.kavin.rocks"]
        "en" "US" none "/suggest").body = "\x7b\"suggestions\":[]\x7d" ∧
    (suggestHandler 0 Cache.empty upDown ["https://yewtu.be"] ["https://pipedapi.kavin.rocks"]
        "en" "US" none "/suggest").fetched = [] ∧
    (searchHandler 0 Cache.empty upDown upTextDown ["https://yewtu.be"]
        ["https://pipedapi.kavin.rocks"] "en" "US" none none "/search").body =
      "\x7b\"items\":[],\"nextPage\":null\x7d" ∧
    (searchHandler 0 Cache.empty upDown upTextDown ["https://yewtu.be"]
        ["https://pipedapi.kavin.rocks"] "en" "US" none none "/search").fetched = [] := by
  have h := c7_empty_query_short_circuit 0 Cache.empty upDown upTextDown
    ["https://yewtu.be"] ["https://pipedapi.kavin.rocks"] "en" "US" none none
    "/suggest" (Or.inl rfl) rfl
  have h2 := c7_empty_query_short_circuit 0 Cache.empty upDown upTextDown
    ["https://yewtu.be"] ["https://pipedapi.kavin.rocks"] "en" "US" none none
    "/search" (Or.inl rfl) rfl
  exact ⟨by rw [h.1]; rfl, by rw [h.1]; rfl, by rw [h2.2.1]; rfl, by rw [h2.2.1]; rfl⟩

/- ===== C10 ===== -/

/-- C10: a whitespace-only `q` is trimmed and treated exactly like an
absent query: immediate empty result, no upstream fetch, on all three
endpoints. -/
theorem c10_whitespace_query
    (now : Nat) (c : Cache) (up : Upstream) (upText : String → Except String String)
    (invPool pipPool : List String) (hl gl : String) (q : String) (pp : Option String)
    (url : String) (hq : jsTrim q = "") (hmiss : c.get now url = none) :
    suggestHandler now c up invPool pipPool hl gl (some q) url =
      sendJsonOut now c url [] (.obj [("suggestions", .arr [])]) 200 ∧
    searchHandler now c up upText invPool pipPool hl gl (some q) pp url =
      sendJsonOut now c url [] (.obj [("items", .arr []), ("nextPage", .null)]) 200 ∧
    channelsHandler now c up upText invPool pipPool hl gl (some q) pp url =
      sendJsonOut now c url [] (.obj [("items", .arr []), ("nextPage", .null)]) 200 := by
  have ht : trimmedQ (some q) = "" := hq
  exact ⟨by simp [suggestHandler, hmiss, ht],
         by simp [searchHandler, hmiss, ht],
         by simp [channelsHandler, hmiss, ht]⟩

/-- Witness for C10 at `q = "   "`. -/
theorem c10_whitespace_query_witness :
    (suggestHandler 0 Cache.empty upDown ["https://yewtu.be"] ["https://pipedapi.kavin.rocks"]
        "en" "US" (some "   ") "/suggest?q=+++").body = "\x7b\"suggestions\":[]\x7d" ∧
    (suggestHandler 0 Cache.empty upDown ["https://yewtu.be"] ["https://pipedapi.kavin.rocks"]
        "en" "US" (some "   ") "/suggest?q=+++").fetched = [] := by
  have h := c10_whitespace_query 0 Cache.empty upDown upTextDown
    ["https://yewtu.be"] ["https://pipedapi.kavin.rocks"] "en" "US" "   " none
    "/suggest?q=+++" rfl rfl
  exact ⟨by rw [h.1]; rfl, by rw [h.1]; rfl⟩

/- ===== C8 ===== -/

/-- C8: when the fetched HTML contains no pattern with a parseable embedded
JSON blob, `ytHtmlFallbackSearch` yields the empty item list annotated with
`error: "yt_html_parse_failed"` instead of a thrown error. -/
theorem c8_html_parse_failure_soft
    (upText : String → Except String String) (hl gl q html : String)
    (hfetch : upText (ytSearchUrl hl gl q) = .ok html)
    (hparse : extractJSONFromHTML html = none) :
    ytHtmlFallbackSearch upText hl gl q =
      (.ok (.obj [("items", .arr []), ("nextPage", .num (.int 2)),
        ("error", .str "yt_html_parse_failed")]), [ytSearchUrl hl gl q]) := by
  simp [ytHtmlFallbackSearch, hfetch, hparse]

/-- Witness for C8 on HTML without any of the known patterns. -/
theorem c8_html_parse_failure_soft_witness :
    ytHtmlFallbackSearch (fun _ => .ok "<html><body>captcha</body></html>") "en" "US" "cats" =
      (.ok (.obj [("items", .arr []), ("nextPage", .num (.int 2)),
        ("error", .str "yt_html_parse_failed")]), [ytSearchUrl "en" "US" "cats"]) :=
  c8_html_parse_failure_soft (fun _ => .ok "<html><body>captcha</body></html>")
    "en" "US" "cats" "<html><body>captcha</body></html>" rfl rfl

/- ===== C9 ===== -/

/-- On a rendered-cache miss, the `/suggest` handler's output is produced by
`sendJsonOut` under the inbound key (every return path is a `sendJson`). -/
theorem suggestHandler_shape (now : Nat) (c : Cache) (up : Upstream)
    (invPool pipPool : List String) (hl gl : String) (qp : Option String)
    (url : String) (hmiss : c.get now url = none) :
    ∃ c2 f p st, suggestHandler now c up invPool pipPool hl gl qp url =
      sendJsonOut now c2 url f p st := by
  by_cases hq : trimmedQ qp = ""
  · exact ⟨c, [], .obj [("suggestions", .arr [])], 200, by simp [suggestHandler, hmiss, hq]⟩
  · rcases hA : suggestAttempt now up invPool pipPool hl gl (trimmedQ qp) ⟨c, []⟩ with ⟨r, s⟩
    cases r with
    | ok payload =>
      exact ⟨s.cache, s.fetched, payload, 200, by simp [suggestHandler, hmiss, hq, hA]⟩
    | error m =>
      exact ⟨s.cache, s.fetched,
        .obj [("suggestions", .arr []), ("error", .str "upstream_unavailable")], 200,
        by simp [suggestHandler, hmiss, hq, hA]⟩

/-- On a rendered-cache miss, the `/search` handler's output is produced by
`sendJsonOut` under the inbound key. -/
theorem searchHandler_shape (now : Nat) (c : Cache) (up : Upstream)
    (upText : String → Except String String) (invPool pipPool : List String)
    (hl gl : String) (qp pp : Option String) (url : String)
    (hmiss : c.get now url = none) :
    ∃ c2 f p st, searchHandler now c up upText invPool pipPool hl gl qp pp url =
      sendJsonOut now c2 url f p st := by
  by_cases hq : trimmedQ qp = ""
  · exact ⟨c, [], .obj [("items", .arr []), ("nextPage", .null)], 200,
      by simp [searchHandler, hmiss, hq]⟩
  · rcases hA : searchAttempt now up upText invPool pipPool hl gl (trimmedQ qp) (pageOf pp) ⟨c, []⟩
      with ⟨r, s⟩
    cases r with
    | ok payload =>
      exact ⟨s.cache, s.fetched, payload, 200, by simp [searchHandler, hmiss, hq, hA]⟩
    | error m =>
      exact ⟨s.cache, s.fetched,
        .obj [("items", .arr []), ("nextPage", .num (jsAddOne (pageOf pp))),
          ("error", .str "upstream_unavailable")], 200,
        by simp [searchHandler, hmiss, hq, hA]⟩

/-- On a rendered-cache miss, the `/channels` handler's output is produced
by `sendJsonOut` under the inbound key. -/
theorem channelsHandler_shape (now : Nat) (c : Cache) (up : Upstream)
    (upText : String → Except String String) (invPool pipPool : List String)
    (hl gl : String) (qp pp : Option String) (url : String)
    (hmiss : c.get now url = none) :
    ∃ c2 f p st, channelsHandler now c up upText invPool pipPool hl gl qp pp url =
      sendJsonOut now c2 url f p st := by
  by_cases hq : trimmedQ qp = ""
  · exact ⟨c, [], .obj [("items", .arr []), ("nextPage", .null)], 200,
      by simp [channelsHandler, hmiss, hq]⟩
  · rcases hA : channelsAttempt now up upText invPool pipPool hl gl (trimmedQ qp) (pageOf pp) ⟨c, []⟩
      with ⟨r, s⟩
    cases r with
    | ok payload =>
      exact ⟨s.cache, s.fetched, payload, 200, by simp [channelsHandler, hmiss, hq, hA]⟩
    | error m =>
      exact ⟨s.cache, s.fetched,
        .obj [("items", .arr []), ("nextPage", .num (jsAddOne (pageOf pp))),
          ("error", .str "upstream_unavailable")], 200,
        by simp [channelsHandler, hmiss, hq, hA]⟩

/-- C9: on a cache miss every response of the three endpoints — including
degraded ones — is stored in the rendered cache under the inbound key with
exactly the sent status and body, and an identical request arriving within
the TTL (under any later upstream behaviour, including total failure) is
answered from the cache with the same status and byte-identical body and
no fetch at all. -/
theorem c9_responses_cached_before_send
    (now now2 : Nat) (c : Cache) (up up2 : Upstream)
    (upText upText2 : String → Except String String)
    (invPool pipPool : List String) (hl gl : String) (qp pp : Option String)
    (url : String) (hmiss : c.get now url = none) (ht : now2 < now + cacheTTLms) :
    (let o := suggestHandler now c up invPool pipPool hl gl qp url
     o.cache.get now2 url = some (.rendered o.status o.body) ∧
     suggestHandler now2 o.cache up2 invPool pipPool hl gl qp url =
       ⟨o.status, o.body, o.cache, []⟩) ∧
    (let o := searchHandler now c up upText invPool pipPool hl gl qp pp url
     o.cache.get now2 url = some (.rendered o.status o.body) ∧
     searchHandler now2 o.cache up2 upText2 invPool pipPool hl gl qp pp url =
       ⟨o.status, o.body, o.cache, []⟩) ∧
    (let o := channelsHandler now c up upText invPool pipPool hl gl qp pp url
     o.cache.get now2 url = some (.rendered o.status o.body) ∧
     channelsHandler now2 o.cache up2 upText2 invPool pipPool hl gl qp pp url =
       ⟨o.status, o.body, o.cache, []⟩) := by
  refine ⟨?_, ?_, ?_⟩
  · obtain ⟨c2, f, p, st, hEq⟩ :=
      suggestHandler_shape now c up invPool pipPool hl gl qp url hmiss
    dsimp only
    rw [hEq]
    have hget := sendJsonOut_get now c2 url f p st now2 ht
    exact ⟨hget, by simp [suggestHandler, hget, CEntry.statusOf, CEntry.bodyOf]⟩
  · obtain ⟨c2, f, p, st, hEq⟩ :=
      searchHandler_shape now c up upText invPool pipPool hl gl qp pp url hmiss
    dsimp only
    rw [hEq]
    have hget := sendJsonOut_get now c2 url f p st now2 ht
    exact ⟨hget, by simp [searchHandler, hget, CEntry.statusOf, CEntry.bodyOf]⟩
  · obtain ⟨c2, f, p, st, hEq⟩ :=
      channelsHandler_shape now c up upText invPool pipPool hl gl qp pp url hmiss
    dsimp only
    rw [hEq]
    have hget := sendJsonOut_get now c2 url f p st now2 ht
    exact ⟨hget, by simp [channelsHandler, hget, CEntry.statusOf, CEntry.bodyOf]⟩

/-- Witness for C9: concrete total-failure requests at time 0, repeated at
time 1, all answered from the rendered cache without fetching. -/
theorem c9_responses_cached_before_send_witness :
    (let o := suggestHandler 0 Cache.empty upDown ["https://yewtu.be"]
        ["https://pipedapi.kavin.rocks"] "en" "US" (some "x") "/search?q=x"
     o.cache.get 1 "/search?q=x" = some (.rendered o.status o.body) ∧
     suggestHandler 1 o.cache upDown ["https://yewtu.be"]
        ["https://pipedapi.kavin.rocks"] "en" "US" (some "x") "/search?q=x" =
       ⟨o.status, o.body, o.cache, []⟩) ∧
    (let o := searchHandler 0 Cache.empty upDown upTextDown ["https://yewtu.be"]
        ["https://pipedapi.kavin.rocks"] "en" "US" (some "x") none "/search?q=x"
     o.cache.get 1 "/search?q=x" = some (.rendered o.status o.body) ∧
     searchHandler 1 o.cache upDown upTextDown ["https://yewtu.be"]
        ["https://pipedapi.kavin.rocks"] "en" "US" (some "x") none "/search?q=x" =
       ⟨o.status, o.body, o.cache, []⟩) ∧
    (let o := channelsHandler 0 Cache.empty upDown upTextDown ["https://yewtu.be"]
        ["https://pipedapi.kavin.rocks"] "en" "US" (some "x") none "/search?q=x"
     o.cache.get 1 "/search?q=x" = some (.rendered o.status o.body) ∧
     channelsHandler 1 o.cache upDown upTextDown ["https://yewtu.be"]
        ["https://pipedapi.kavin.rocks"] "en" "US" (some "x") none "/search?q=x" =
       ⟨o.status, o.body, o.cache, []⟩) :=
  c9_responses_cached_before_send 0 1 Cache.empty upDown upDown upTextDown upTextDown
    ["https://yewtu.be"] ["https://pipedapi.kavin.rocks"] "en" "US"
    (some "x") none "/search?q=x" rfl (by decide)

/- ===== C1 ===== -/

/-- The part_001 `/suggest` response when both upstreams fail. -/
def c1out : Out :=
  p001suggestHandler 0 Cache.empty upDown INVIDIOUS_BASE PIPED_BASE
    (some "cats") "/suggest?q=cats"

/-- C1: evaluating the part_001 `/suggest` handler on total upstream
exhaustion: it responds with status **502** and `{ suggestions: [],
error: String(e) }`, contradicting the never-5xx contract that the other
two revisions implement and document (`// IMPORTANT: never 5xx for
suggest`). -/
theorem c1_part001_hard_failure :
    c1out.status = 502 ∧
    c1out.body = jsonStringify (.obj [("suggestions", .arr []),
      ("error", .str "Error: fetch failed")]) ∧
    c1out.status ≠ 200 :=
  ⟨rfl, rfl, by decide⟩

/- ===== C2 counterexample ===== -/

/-- The main `/search` response when every Invidious candidate returns a
structurally empty list. -/
def c2out : Out :=
  searchHandler 0 Cache.empty upEmptyList upTextDown [INVIDIOUS_BASE] [PIPED_BASE]
    SUGGEST_HL SUGGEST_GL (some "cats") none "/search?q=cats"

/-- C2 counterexample: with the Invidious tier returning `[]`, `/search`
returns `{ items: [], nextPage: 2 }` as a terminal success (status 200, no
soft-failure marker) while the Piped tier and the HTML fallback were never
attempted — structural emptiness does **not** trigger fallthrough. -/
theorem c2_counterexample :
    c2out.status = 200 ∧
    c2out.body = jsonStringify (.obj [("items", .arr []), ("nextPage", .num (.int 2))]) ∧
    c2out.fetched = [invSearchUrl INVIDIOUS_BASE "cats" "1"] ∧
    pipSearchUrl1 PIPED_BASE "cats" "1" ∉ c2out.fetched ∧
    pipSearchUrl2 PIPED_BASE "cats" "1" ∉ c2out.fetched ∧
    ytSearchUrl SUGGEST_HL SUGGEST_GL "cats" ∉ c2out.fetched :=
  ⟨rfl, rfl, rfl, by decide, by decide, by decide⟩

/- ===== C5 counterexample ===== -/

/-- Fifteen raw suggestion strings. -/
def fifteenSuggestions : List Json :=
  [.str "s01", .str "s02", .str "s03", .str "s04", .str "s05",
   .str "s06", .str "s07", .str "s08", .str "s09", .str "s10",
   .str "s11", .str "s12", .str "s13", .str "s14", .str "s15"]

/-- The part_001 `/suggest` response when Invidious returns 15 suggestions. -/
def c5out : Out :=
  p001suggestHandler 0 Cache.empty (fun _ => .ok (.arr fifteenSuggestions))
    INVIDIOUS_BASE PIPED_BASE (some "cats") "/suggest?q=cats"

/-- C5 counterexample: the part_001 `/suggest` handler has no
`.slice(0, 10)` — with 15 raw suggestion strings it returns all 15, not
exactly the first 10. -/
theorem c5_counterexample :
    fifteenSuggestions.length = 15 ∧
    c5out.body = jsonStringify (.obj [("suggestions", .arr fifteenSuggestions)]) ∧
    c5out.body ≠ jsonStringify (.obj [("suggestions", .arr (fifteenSuggestions.take 10))]) :=
  ⟨rfl, rfl, by decide⟩

/- ===== C5 amended ===== -/

/-- C5 (amended): in the main revision, the `/suggest` response always
carries a `suggestions` list of at most 10 strings: a successful Invidious
tier yields `String`-coerced raw suggestions, first 10 in original order
(`.map(String).slice(0, 10)`), and total failure still carries the field as
`[]`; the part_001 revision returns the list uncapped (see the
counterexample). -/
theorem c5_amended :
    (∀ (q : String) (up : Upstream) (xs : List Json),
      jsTrim q ≠ "" →
      up (invSuggestUrl INVIDIOUS_BASE (jsTrim q)) = .ok (.arr xs) →
      (suggestHandler 0 Cache.empty up [INVIDIOUS_BASE] [PIPED_BASE] SUGGEST_HL SUGGEST_GL
          (some q) "/suggest").body =
        jsonStringify (.obj [("suggestions",
          .arr ((xs.map (fun j => Json.str (jsToString j))).take 10))]) ∧
      (suggestHandler 0 Cache.empty up [INVIDIOUS_BASE] [PIPED_BASE] SUGGEST_HL SUGGEST_GL
          (some q) "/suggest").status = 200) ∧
    (∀ (q : String) (up : Upstream),
      jsTrim q ≠ "" →
      (∀ u, up u = .error "Error: fetch failed") →
      (suggestHandler 0 Cache.empty up [INVIDIOUS_BASE] [PIPED_BASE] SUGGEST_HL SUGGEST_GL
          (some q) "/suggest").body =
        jsonStringify (.obj [("suggestions", .arr []),
          ("error", .str "upstream_unavailable")]) ∧
      (suggestHandler 0 Cache.empty up [INVIDIOUS_BASE] [PIPED_BASE] SUGGEST_HL SUGGEST_GL
          (some q) "/suggest").status = 200) := by
  constructor
  · intro q up xs hq h1
    have hqt : trimmedQ (some q) = jsTrim q := rfl
    constructor <;>
      simp [suggestHandler, Cache.get, Cache.empty, hqt, hq, suggestAttempt, raceAll,
        getCachedF, h1, coerceListVal, jsMapToString, sendJsonOut]
  · intro q up hq h2
    have hqt : trimmedQ (some q) = jsTrim q := rfl
    constructor <;>
      simp [suggestHandler, Cache.get, Cache.empty, hqt, hq, suggestAttempt, raceAll,
        getCachedF, h2, sendJsonOut]

/-- Witness for the amended C5: 15 raw strings become exactly the first 10;
total failure still carries `suggestions: []`. -/
theorem c5_amended_witness :
    (suggestHandler 0 Cache.empty (fun _ => .ok (.arr fifteenSuggestions))
        [INVIDIOUS_BASE] [PIPED_BASE] SUGGEST_HL SUGGEST_GL (some "cats") "/suggest").body =
      jsonStringify (.obj [("suggestions",
        .arr ((fifteenSuggestions.map (fun j => Json.str (jsToString j))).take 10))]) ∧
    (suggestHandler 0 Cache.empty upDown [INVIDIOUS_BASE] [PIPED_BASE] SUGGEST_HL SUGGEST_GL
        (some "cats") "/suggest").body =
      jsonStringify (.obj [("suggestions", .arr []), ("error", .str "upstream_unavailable")]) :=
  ⟨(c5_amended.1 "cats" (fun _ => .ok (.arr fifteenSuggestions)) fifteenSuggestions
      (by decide) rfl).1,
   (c5_amended.2 "cats" upDown (by decide) (fun _ => rfl)).1⟩

/- ===== C2 amended ===== -/

/-- C2 (amended): only the part_000 `/suggest` cascade treats a
structurally empty tier result like a failure: when every Invidious
candidate returns `[]`, the handler falls through and serves the Piped
tier's non-empty list (both tiers were attempted, in order); the `/search`
and `/channels` handlers instead return an empty tier result as a terminal
success without trying later tiers (see the counterexample). -/
theorem c2_amended
    (q : String) (ys : List Json) (up : Upstream)
    (hq : jsTrim q ≠ "")
    (hys : ys ≠ [])
    (hne : ("UPSTREAM:" ++ invSuggestUrl INVIDIOUS_BASE (jsTrim q)) ≠
      ("UPSTREAM:" ++ pipSuggestUrl1 PIPED_BASE (jsTrim q)))
    (h1 : up (invSuggestUrl INVIDIOUS_BASE (jsTrim q)) = .ok (.arr []))
    (h2 : up (pipSuggestUrl1 PIPED_BASE (jsTrim q)) = .ok (.arr ys)) :
    (p000suggestHandler 0 Cache.empty up [INVIDIOUS_BASE] [PIPED_BASE] SUGGEST_HL SUGGEST_GL
        (some q) "/suggest").body =
      jsonStringify (.obj [("suggestions",
        .arr ((ys.map (fun j => Json.str (jsToString j))).take 10))]) ∧
    (p000suggestHandler 0 Cache.empty up [INVIDIOUS_BASE] [PIPED_BASE] SUGGEST_HL SUGGEST_GL
        (some q) "/suggest").status = 200 ∧
    invSuggestUrl INVIDIOUS_BASE (jsTrim q) ∈
      (p000suggestHandler 0 Cache.empty up [INVIDIOUS_BASE] [PIPED_BASE] SUGGEST_HL SUGGEST_GL
        (some q) "/suggest").fetched ∧
    pipSuggestUrl1 PIPED_BASE (jsTrim q) ∈
      (p000suggestHandler 0 Cache.empty up [INVIDIOUS_BASE] [PIPED_BASE] SUGGEST_HL SUGGEST_GL
        (some q) "/suggest").fetched := by
  have hqt : trimmedQ (some q) = jsTrim q := rfl
  have hbeq : (("UPSTREAM:" ++ invSuggestUrl INVIDIOUS_BASE (jsTrim q)) ==
      ("UPSTREAM:" ++ pipSuggestUrl1 PIPED_BASE (jsTrim q))) = false :=
    beq_eq_false_iff_ne.mpr hne
  cases ys with
  | nil => exact absurd rfl hys
  | cons y ys' =>
    refine ⟨?_, ?_, ?_, ?_⟩ <;>
      simp [p000suggestHandler, p000suggestCore, p000suggestTier, firstOkSeq, firstOkGo,
        Cache.get, Cache.empty, Cache.set, hqt, hq, getCachedF, h1, h2, hbeq,
        coerceListVal, sendJsonOut, List.find?]

/-- A concrete upstream for the C2 witness: Invidious suggestions are
empty, Piped has one suggestion. -/
def c2up : Upstream := fun u =>
  if u = invSuggestUrl INVIDIOUS_BASE "cats" then .ok (.arr [])
  else .ok (.arr [.str "a"])

/-- Witness for the amended C2 at a concrete query. -/
theorem c2_amended_witness :
    (p000suggestHandler 0 Cache.empty c2up [INVIDIOUS_BASE] [PIPED_BASE] SUGGEST_HL SUGGEST_GL
        (some "cats") "/suggest").body =
      jsonStringify (.obj [("suggestions",
        .arr (([Json.str "a"].map (fun j => Json.str (jsToString j))).take 10))]) ∧
    (p000suggestHandler 0 Cache.empty c2up [INVIDIOUS_BASE] [PIPED_BASE] SUGGEST_HL SUGGEST_GL
        (some "cats") "/suggest").status = 200 ∧
    invSuggestUrl INVIDIOUS_BASE "cats" ∈
      (p000suggestHandler 0 Cache.empty c2up [INVIDIOUS_BASE] [PIPED_BASE] SUGGEST_HL SUGGEST_GL
        (some "cats") "/suggest").fetched ∧
    pipSuggestUrl1 PIPED_BASE "cats" ∈
      (p000suggestHandler 0 Cache.empty c2up [INVIDIOUS_BASE] [PIPED_BASE] SUGGEST_HL SUGGEST_GL
        (some "cats") "/suggest").fetched :=
  c2_amended "cats" [.str "a"] c2up (by decide) (by simp) (by decide)
    (by simp only [c2up]; rw [show jsTrim "cats" = "cats" from rfl, if_pos rfl])
    (by simp only [c2up]; rw [show jsTrim "cats" = "cats" from rfl, if_neg (by decide)])

/- ===== C4 ===== -/

/-- C4 counterexample: a raw video with the non-numeric view alias
`views: "abc"` normalizes to `viewCount: NaN`, not `0` —
`Number(v.viewCount ?? v.views ?? 0)` does not fall back to `0` on
non-numeric present values. -/
theorem c4_counterexample :
    jsGet (resultOf (normalizeVideo (Json.obj [("views", Json.str "abc")]))) "viewCount" =
      .num .nan ∧
    JsNum.nan ≠ JsNum.int 0 :=
  ⟨rfl, by decide⟩

/-- C4 (amended): whenever `normalizeVideo` returns, the normalized
`viewCount` is the JS `Number` coercion of the first non-nullish alias
among `viewCount` and `views`, defaulting to `0` only when both are
absent/null; numeric strings coerce to their value, while non-numeric
present values coerce to `NaN` (see the counterexample), not `0`. -/
theorem c4_amended (v out : Json) (h : normalizeVideo v = .ok out) :
    jsGet out "viewCount" =
      .num (jsToNumber (jsOr (jsGet v "viewCount") (jsOr (jsGet v "views") (.num (.int 0))))) := by
  cases v
  case undefined =>
    simp only [normalizeVideo, jsMember, Except.instMonad, Except.bind, Bind.bind] at h
    exact absurd h (by simp)
  case null =>
    simp only [normalizeVideo, jsMember, Except.instMonad, Except.bind, Bind.bind] at h
    exact absurd h (by simp)
  all_goals
    simp only [normalizeVideo, jsMember, Except.instMonad, Except.bind, Bind.bind,
      Except.map, Functor.map] at h
  all_goals
    split at h
  all_goals
    try exact absurd h (by simp)
  all_goals
    (obtain rfl : _ = out := Except.ok.inj h)
  all_goals rfl

/-- Witness for the amended C4: `views: "1234"` coerces to `1234`, absent
aliases default to `0`, and `views: "abc"` coerces to `NaN`. -/
theorem c4_amended_witness :
    jsGet (resultOf (normalizeVideo (Json.obj [("views", Json.str "1234")]))) "viewCount" =
      .num (.int 1234) ∧
    jsGet (resultOf (normalizeVideo (Json.obj [("title", Json.str "t")]))) "viewCount" =
      .num (.int 0) ∧
    jsGet (resultOf (normalizeVideo (Json.obj [("views", Json.str "abc")]))) "viewCount" =
      .num .nan := by
  refine ⟨?_, ?_, ?_⟩
  · have h := c4_amended (Json.obj [("views", Json.str "1234")])
      (resultOf (normalizeVideo (Json.obj [("views", Json.str "1234")]))) rfl
    rw [h]; rfl
  · have h := c4_amended (Json.obj [("title", Json.str "t")])
      (resultOf (normalizeVideo (Json.obj [("title", Json.str "t")]))) rfl
    rw [h]; rfl
  · have h := c4_amended (Json.obj [("views", Json.str "abc")])
      (resultOf (normalizeVideo (Json.obj [("views", Json.str "abc")]))) rfl
    rw [h]; rfl

/- ===== C6 ===== -/

/-- Every element produced by a successful throwing `.map` comes from some
element of the input list. -/
theorem exMap_mem {α β : Type} (f : α → Except String β) :
    ∀ (xs : List α) (ms : List β), exMap f xs = .ok ms → ∀ m ∈ ms, ∃ x ∈ xs, f x = .ok m := by
  intro xs
  induction xs with
  | nil =>
    intro ms h m hm
    simp only [exMap] at h
    obtain rfl : _ = ms := Except.ok.inj h
    simp at hm
  | cons x xs ih =>
    intro ms h m hm
    simp only [exMap, Except.instMonad, Except.bind, Bind.bind, pure, Except.pure] at h
    split at h
    · exact absurd h (by simp)
    · rename_i y hy
      split at h
      · exact absurd h (by simp)
      · rename_i ys hys
        obtain rfl : _ = ms := Except.ok.inj h
        rcases List.mem_cons.mp hm with rfl | hm2
        · exact ⟨x, List.mem_cons_self x xs, hy⟩
        · obtain ⟨x2, hx2, hfx2⟩ := ih ys hys m hm2
          exact ⟨x2, List.mem_cons_of_mem x hx2, hfx2⟩

/-- Member access either succeeds uniformly (non-nullish receiver) or
throws uniformly (nullish receiver). -/
theorem jsMember_ok_or (it : Json) :
    (∀ k, jsMember it k = .ok (jsGet it k)) ∨ (∀ k, ∃ m, jsMember it k = .error m) := by
  cases it <;> simp [jsMember]

/-- Case analysis of the Invidious `/search` item mapper on a non-nullish
item: a produced item is a tagged video, channel, or playlist object. -/
theorem mapInv_cases_aux (it j : Json)
    (hmem : ∀ k, jsMember it k = .ok (jsGet it k))
    (h : mapInvSearchItem it = .ok (some j)) :
    (∃ d, normalizeVideo it = .ok d ∧
       j = .obj [("kind", .str "video"), ("data", d)]) ∨
    (∃ d, normalizeChannel it = .ok d ∧
       j = .obj [("kind", .str "channel"), ("data", d)]) ∨
    (j = .obj [("kind", .str "playlist"),
       ("data", .obj [("id", jsGet it "playlistId"), ("title", jsOr (jsGet it "title") (.str ""))])]) := by
  simp only [mapInvSearchItem, hmem, Except.instMonad, Except.bind, Bind.bind,
    pure, Except.pure] at h
  by_cases h1 : (strictEqStr (jsGet it "type") "video" || truthy (jsGet it "videoId")) = true
  · rw [if_pos h1] at h
    rcases hn : normalizeVideo it with m | d
    · rw [hn] at h; exact absurd h (by simp)
    · rw [hn] at h
      exact Or.inl ⟨d, rfl, (Option.some.inj (Except.ok.inj h)).symm⟩
  · rw [if_neg h1] at h
    by_cases h2 : (strictEqStr (jsGet it "type") "channel" || truthy (jsGet it "authorId") ||
        truthy (jsGet it "channelId")) = true
    · rw [if_pos h2] at h
      rcases hn : normalizeChannel it with m | d
      · rw [hn] at h; exact absurd h (by simp)
      · rw [hn] at h
        exact Or.inr (Or.inl ⟨d, rfl, (Option.some.inj (Except.ok.inj h)).symm⟩)
    · rw [if_neg h2] at h
      by_cases h3 : (strictEqStr (jsGet it "type") "playlist" || truthy (jsGet it "playlistId")) = true
      · rw [if_pos h3] at h
        exact Or.inr (Or.inr (Option.some.inj (Except.ok.inj h)).symm)
      · rw [if_neg h3] at h
        exact absurd h (by simp)

/-- Case analysis of the Invidious `/search` item mapper: a produced item
is a tagged video, channel, or playlist object. -/
theorem mapInv_cases (it j : Json) (h : mapInvSearchItem it = .ok (some j)) :
    (∃ d, normalizeVideo it = .ok d ∧
       j = .obj [("kind", .str "video"), ("data", d)]) ∨
    (∃ d, normalizeChannel it = .ok d ∧
       j = .obj [("kind", .str "channel"), ("data", d)]) ∨
    (j = .obj [("kind", .str "playlist"),
       ("data", .obj [("id", jsGet it "playlistId"), ("title", jsOr (jsGet it "title") (.str ""))])]) := by
  rcases jsMember_ok_or it with hmem | hbad
  · exact mapInv_cases_aux it j hmem h
  · obtain ⟨m, hm⟩ := hbad "type"
    simp only [mapInvSearchItem, hm, Except.instMonad, Except.bind, Bind.bind] at h
    exact absurd h (by simp)

/-- Case analysis of the Piped `/search` item mapper on a non-nullish
item. -/
theorem mapPip_cases_aux (it j : Json)
    (hmem : ∀ k, jsMember it k = .ok (jsGet it k))
    (h : mapPipSearchItem it = .ok (some j)) :
    (∃ d, normalizeVideo it = .ok d ∧
       j = .obj [("kind", .str "video"), ("data", d)]) ∨
    (∃ d, normalizeChannel it = .ok d ∧
       j = .obj [("kind", .str "channel"), ("data", d)]) ∨
    (j = .obj [("kind", .str "playlist"),
       ("data", .obj [("id", jsOr (jsGet it "playlistId") (jsGet it "id")),
         ("title", jsOr (jsGet it "title") (.str ""))])]) := by
  simp only [mapPipSearchItem, hmem, Except.instMonad, Except.bind, Bind.bind,
    pure, Except.pure] at h
  by_cases h1 : strictEqStr (jsGet it "type") "video" = true
  · rw [if_pos h1] at h
    rcases hn : normalizeVideo it with m | d
    · rw [hn] at h; exact absurd h (by simp)
    · rw [hn] at h
      exact Or.inl ⟨d, rfl, (Option.some.inj (Except.ok.inj h)).symm⟩
  · rw [if_neg h1] at h
    by_cases h2 : strictEqStr (jsGet it "type") "channel" = true
    · rw [if_pos h2] at h
      rcases hn : normalizeChannel it with m | d
      · rw [hn] at h; exact absurd h (by simp)
      · rw [hn] at h
        exact Or.inr (Or.inl ⟨d, rfl, (Option.some.inj (Except.ok.inj h)).symm⟩)
    · rw [if_neg h2] at h
      by_cases h3 : strictEqStr (jsGet it "type") "playlist" = true
      · rw [if_pos h3] at h
        exact Or.inr (Or.inr (Option.some.inj (Except.ok.inj h)).symm)
      · rw [if_neg h3] at h
        exact absurd h (by simp)

/-- Case analysis of the Piped `/search` item mapper. -/
theorem mapPip_cases (it j : Json) (h : mapPipSearchItem it = .ok (some j)) :
    (∃ d, normalizeVideo it = .ok d ∧
       j = .obj [("kind", .str "video"), ("data", d)]) ∨
    (∃ d, normalizeChannel it = .ok d ∧
       j = .obj [("kind", .str "channel"), ("data", d)]) ∨
    (j = .obj [("kind", .str "playlist"),
       ("data", .obj [("id", jsOr (jsGet it "playlistId") (jsGet it "id")),
         ("title", jsOr (jsGet it "title") (.str ""))])]) := by
  rcases jsMember_ok_or it with hmem | hbad
  · exact mapPip_cases_aux it j hmem h
  · obtain ⟨m, hm⟩ := hbad "type"
    simp only [mapPipSearchItem, hm, Except.instMonad, Except.bind, Bind.bind] at h
    exact absurd h (by simp)

/-- The normalized video id is the first non-nullish alias among
`videoId` and `id`. -/
theorem normalizeVideo_shape (v d : Json) (h : normalizeVideo v = .ok d) :
    jsGet d "id" = jsOr (jsGet v "videoId") (jsOr (jsGet v "id") .null) := by
  cases v
  case undefined =>
    simp only [normalizeVideo, jsMember, Except.instMonad, Except.bind, Bind.bind] at h
    exact absurd h (by simp)
  case null =>
    simp only [normalizeVideo, jsMember, Except.instMonad, Except.bind, Bind.bind] at h
    exact absurd h (by simp)
  all_goals
    simp only [normalizeVideo, jsMember, Except.instMonad, Except.bind, Bind.bind,
      Except.map, Functor.map] at h
  all_goals
    split at h
  all_goals
    try exact absurd h (by simp)
  all_goals
    obtain rfl : _ = d := Except.ok.inj h
  all_goals rfl

/-- The normalized channel id is the first non-nullish alias among
`authorId`, `id` and `ucid`. -/
theorem normalizeChannel_shape (c d : Json) (h : normalizeChannel c = .ok d) :
    jsGet d "id" = jsOr (jsGet c "authorId") (jsOr (jsGet c "id") (jsOr (jsGet c "ucid") .null)) := by
  cases c
  case undefined =>
    simp only [normalizeChannel, jsMember, Except.instMonad, Except.bind, Bind.bind] at h
    exact absurd h (by simp)
  case null =>
    simp only [normalizeChannel, jsMember, Except.instMonad, Except.bind, Bind.bind] at h
    exact absurd h (by simp)
  all_goals
    simp only [normalizeChannel, jsMember, Except.instMonad, Except.bind, Bind.bind,
      pure, Except.pure] at h
  all_goals
    obtain rfl : _ = d := Except.ok.inj h
  all_goals rfl

/-- C6: every item emitted by the `/search` mappers or the `/channels`
pipeline carries a non-null `kind` tag among video/channel/playlist; a raw
entry with no recognizable type discriminator and no defining id field maps
to `null` and is dropped by `filter(Boolean)` (each emitted item originates
from a non-null mapper result); and each emitted item's id is exactly the
first non-nullish known alias the source supplied (`videoId ?? id`,
`authorId ?? id ?? ucid`, `playlistId`), so an id supplied under a known
alias is never lost. -/
theorem c6_items_classified :
    (∀ it j, mapInvSearchItem it = .ok (some j) →
       (jsGet j "kind" = .str "video" ∨ jsGet j "kind" = .str "channel" ∨
        jsGet j "kind" = .str "playlist") ∧ jsGet j "kind" ≠ .null) ∧
    (∀ it j, mapPipSearchItem it = .ok (some j) →
       (jsGet j "kind" = .str "video" ∨ jsGet j "kind" = .str "channel" ∨
        jsGet j "kind" = .str "playlist") ∧ jsGet j "kind" ≠ .null) ∧
    (∀ xs items, channelItemsOf xs = .ok items →
       ∀ j ∈ items, jsGet j "kind" = .str "channel") ∧
    (∀ fs, strictEqStr (jsGet (.obj fs) "type") "video" = false →
       truthy (jsGet (.obj fs) "videoId") = false →
       strictEqStr (jsGet (.obj fs) "type") "channel" = false →
       truthy (jsGet (.obj fs) "authorId") = false →
       truthy (jsGet (.obj fs) "channelId") = false →
       strictEqStr (jsGet (.obj fs) "type") "playlist" = false →
       truthy (jsGet (.obj fs) "playlistId") = false →
       mapInvSearchItem (.obj fs) = .ok none) ∧
    (∀ xs items, mapFilterItems mapInvSearchItem xs = .ok items →
       ∀ j ∈ items, ∃ it ∈ xs, mapInvSearchItem it = .ok (some j)) ∧
    (∀ it j, mapInvSearchItem it = .ok (some j) → jsGet j "kind" = .str "video" →
       jsGet (jsGet j "data") "id" = jsOr (jsGet it "videoId") (jsOr (jsGet it "id") .null)) ∧
    (∀ it j, mapInvSearchItem it = .ok (some j) → jsGet j "kind" = .str "channel" →
       jsGet (jsGet j "data") "id" =
         jsOr (jsGet it "authorId") (jsOr (jsGet it "id") (jsOr (jsGet it "ucid") .null))) ∧
    (∀ it j, mapInvSearchItem it = .ok (some j) → jsGet j "kind" = .str "playlist" →
       jsGet (jsGet j "data") "id" = jsGet it "playlistId") := by
  refine ⟨?_, ?_, ?_, ?_, ?_, ?_, ?_, ?_⟩
  · intro it j h
    rcases mapInv_cases it j h with ⟨d, _, rfl⟩ | ⟨d, _, rfl⟩ | rfl
    · exact ⟨Or.inl rfl, by simp [jsGet]⟩
    · exact ⟨Or.inr (Or.inl rfl), by simp [jsGet]⟩
    · exact ⟨Or.inr (Or.inr rfl), by simp [jsGet]⟩
  · intro it j h
    rcases mapPip_cases it j h with ⟨d, _, rfl⟩ | ⟨d, _, rfl⟩ | rfl
    · exact ⟨Or.inl rfl, by simp [jsGet]⟩
    · exact ⟨Or.inr (Or.inl rfl), by simp [jsGet]⟩
    · exact ⟨Or.inr (Or.inr rfl), by simp [jsGet]⟩
  · intro xs items h j hj
    obtain ⟨x, _, hfx⟩ := exMap_mem _ xs items h j hj
    rcases hn : normalizeChannel x with m | d
    · rw [show (do
        let d ← normalizeChannel x
        return Json.obj [("kind", .str "channel"), ("data", d)] :
          Except String Json) = .error m by
          simp only [Except.instMonad, Except.bind, Bind.bind, hn]] at hfx
      exact absurd hfx (by simp)
    · rw [show (do
        let d ← normalizeChannel x
        return Json.obj [("kind", .str "channel"), ("data", d)] :
          Except String Json) = .ok (Json.obj [("kind", .str "channel"), ("data", d)]) by
          simp only [Except.instMonad, Except.bind, Bind.bind, hn, pure, Except.pure]] at hfx
      obtain rfl : _ = j := Except.ok.inj hfx
      rfl
  · intro fs ha hb hc hd he hf hg
    have h1 : (strictEqStr (jsGet (.obj fs) "type") "video" ||
        truthy (jsGet (.obj fs) "videoId")) = false := by rw [ha, hb]; rfl
    have h2 : (strictEqStr (jsGet (.obj fs) "type") "channel" ||
        truthy (jsGet (.obj fs) "authorId") || truthy (jsGet (.obj fs) "channelId")) = false := by
      rw [hc, hd, he]; rfl
    have h3 : (strictEqStr (jsGet (.obj fs) "type") "playlist" ||
        truthy (jsGet (.obj fs) "playlistId")) = false := by rw [hf, hg]; rfl
    simp [mapInvSearchItem, jsMember, Except.instMonad, Except.bind, Bind.bind,
      pure, Except.pure, h1, h2, h3]
  · intro xs items h j hj
    simp only [mapFilterItems, Except.instMonad, Except.bind, Bind.bind,
      pure, Except.pure] at h
    split at h
    · exact absurd h (by simp)
    · rename_i ms hms
      obtain rfl : _ = items := Except.ok.inj h
      obtain ⟨a, ha, haj⟩ := List.mem_filterMap.mp hj
      obtain rfl : a = some j := haj
      exact exMap_mem _ xs ms hms (some j) ha
  · intro it j h hkind
    rcases mapInv_cases it j h with ⟨d, hn, rfl⟩ | ⟨d, hn, rfl⟩ | rfl
    · exact normalizeVideo_shape it d hn
    · exact absurd (Json.str.inj hkind) (by decide)
    · exact absurd (Json.str.inj hkind) (by decide)
  · intro it j h hkind
    rcases mapInv_cases it j h with ⟨d, hn, rfl⟩ | ⟨d, hn, rfl⟩ | rfl
    · exact absurd (Json.str.inj hkind) (by decide)
    · exact normalizeChannel_shape it d hn
    · exact absurd (Json.str.inj hkind) (by decide)
  · intro it j h hkind
    rcases mapInv_cases it j h with ⟨d, hn, rfl⟩ | ⟨d, hn, rfl⟩ | rfl
    · exact absurd (Json.str.inj hkind) (by decide)
    · exact absurd (Json.str.inj hkind) (by decide)
    · rfl

/-- A classifiable raw item for the C6 witness. -/
def c6video : Json := Json.obj [("type", Json.str "video"), ("videoId", Json.str "v123")]

/-- An unclassifiable raw item for the C6 witness. -/
def c6junkFields : List (String × Json) := [("foo", Json.str "x")]

/-- The produced item of a successful mapper call, for stating witnesses. -/
def someResultOf (r : Except String (Option Json)) : Json :=
  match r with
  | .ok (some v) => v
  | _ => .null

/-- Witness for C6: a concrete video item gets a non-null kind and keeps
its supplied `videoId`; a concrete junk entry is dropped. -/
theorem c6_items_classified_witness :
    jsGet (someResultOf (mapInvSearchItem c6video)) "kind" ≠ .null ∧
    mapInvSearchItem (.obj c6junkFields) = .ok none ∧
    jsGet (jsGet (someResultOf (mapInvSearchItem c6video)) "data") "id" = .str "v123" := by
  refine ⟨(c6_items_classified.1 c6video (someResultOf (mapInvSearchItem c6video)) rfl).2,
    c6_items_classified.2.2.2.1 c6junkFields rfl rfl rfl rfl rfl rfl rfl, ?_⟩
  have h := c6_items_classified.2.2.2.2.2.1 c6video
    (someResultOf (mapInvSearchItem c6video)) rfl rfl
  rw [h]; rfl
